import Mathlib

/-!
Verification development for the LoRaWAN Class A MAC layer
(`lr1mac/src/lr1_stack_mac_layer.c`).

The C code is shallowly embedded: machine integers become `Nat`/`Int` with
explicit `% 2^w` where overflow matters, byte buffers become `Nat → Nat`
maps (index to byte) together with explicit size fields, structure-mutating
C functions become pure Lean functions from the state record to a new state
record, and calls into external collaborators that are not part of this
repository slice (crypto primitives, regional-parameter queries, the radio
planner, board support) are passed in as explicit oracle parameters.
-/

namespace LR1Mac

/-- Interpret a `Nat` as the value of a C `uint32_t`, i.e. reduce mod 2^32. -/
def u32 (x : Nat) : Nat := x % 4294967296

/-- Interpret the low 32 bits of a `Nat` as a C `int32_t` (two's complement). -/
def toInt32 (x : Nat) : Int :=
  if x % 4294967296 < 2147483648 then (x % 4294967296 : Int)
  else (x % 4294967296 : Int) - 4294967296

/-- C `uint32_t` subtraction `a - b` (wraps modulo 2^32). -/
def u32sub (a b : Nat) : Nat := (a + 4294967296 - b % 4294967296) % 4294967296

/-- LoRaWAN status codes.  `OKLORAWAN = 0`, `ERRORLORAWAN = -1`; the code
accumulates them with `+=` and compares against `OKLORAWAN`, so the embedding
uses `Int`.  (The enum lives in `lr1mac_defs.h`, which is not part of the
source slice; the values are fixed by the accumulation idiom
`status += ERRORLORAWAN` followed by `status != OKLORAWAN`.) -/
def OKLORAWAN : Int := 0

/-- See `OKLORAWAN`. -/
def ERRORLORAWAN : Int := -1

/-- `static const uint16_t MAX_FCNT_GAP = 16384UL;`
(`lr1_stack_mac_layer.c:63`). -/
def MAX_FCNT_GAP : Nat := 16384

/-- Embedding of `fcnt_dwn_accept` (`lr1_stack_mac_layer.c:1260-1289`).
The C function takes the received 16-bit counter `fcnt_dwn_tmp` and a
pointer to the stored 32-bit counter; it returns `OKLORAWAN` after writing
the reconstructed counter through the pointer, or `ERRORLORAWAN` leaving it
untouched.  The embedding returns `some new_value` in the first case and
`none` in the second. -/
def fcnt_dwn_accept (fcnt_dwn_tmp fcnt_lorawan : Nat) : Option Nat :=
  let fcnt_dwn_lsb := fcnt_lorawan % 65536           -- *fcnt_lorawan & 0x0000FFFF
  let fcnt_dwn_msb := fcnt_lorawan / 65536 * 65536   -- *fcnt_lorawan & 0xFFFF0000
  if fcnt_dwn_tmp > fcnt_dwn_lsb ∨ fcnt_lorawan = 4294967295 then
    if fcnt_lorawan = 4294967295 then some fcnt_dwn_tmp
    else some (fcnt_dwn_msb + fcnt_dwn_tmp)
  else if fcnt_dwn_lsb - fcnt_dwn_tmp > MAX_FCNT_GAP then
    some (u32 (fcnt_dwn_msb + 65536 + fcnt_dwn_tmp))
  else none

end LR1Mac

namespace LR1Mac

/-- C1: For every stored 32-bit FCntDown `s` and received 16-bit value `r`,
`fcnt_dwn_accept` yields: `r` if `s` is the sentinel `0xFFFFFFFF`; else
`(s AND 0xFFFF0000) + r` if `r > s mod 2^16`; else
`(s AND 0xFFFF0000) + 2^16 + r` (as a 32-bit value) if
`(s mod 2^16) - r > 16384`; otherwise it rejects the frame as a replay
(`none`, stored value untouched). -/
theorem fcnt_dwn_accept_spec (s r : Nat) (hs : s < 4294967296) (hr : r < 65536) :
    fcnt_dwn_accept r s =
      (if s = 4294967295 then some r
       else if r > s % 65536 then some (s / 65536 * 65536 + r)
       else if s % 65536 - r > 16384 then some ((s / 65536 * 65536 + 65536 + r) % 4294967296)
       else none) := by
  unfold fcnt_dwn_accept u32 MAX_FCNT_GAP
  by_cases h1 : s = 4294967295
  · subst h1
    simp only [if_pos rfl, or_true, if_pos]
  · by_cases h2 : r > s % 65536
    · simp [h1, h2]
    · simp [h1, h2]

/-- Witness for `fcnt_dwn_accept_spec` at `s = 0x0000FFFE`, `r = 1`
(the "FCnt wrap" scenario of the spec). -/
theorem fcnt_dwn_accept_spec_witness :
    fcnt_dwn_accept 1 65534 =
      (if (65534 : Nat) = 4294967295 then some 1
       else if 1 > 65534 % 65536 then some (65534 / 65536 * 65536 + 1)
       else if 65534 % 65536 - 1 > 16384 then
         some ((65534 / 65536 * 65536 + 65536 + 1) % 4294967296)
       else none) :=
  fcnt_dwn_accept_spec 65534 1 (by norm_num) (by norm_num)

/-! ## Shared data model

Enumerations, protocol constants, byte-buffer helpers and the embedded
`lr1_stack_mac_t` structure. -/

/-- Radio process state (`radio_process_state` field, `lr1mac_defs.h` enum
used at lines 531-550, 604-608). -/
inductive radio_state_t
  | RADIOSTATE_IDLE
  | RADIOSTATE_TXON
  | RADIOSTATE_TXFINISHED
  | RADIOSTATE_RX1FINISHED
  deriving DecidableEq, Repr

/-- Values of `type_of_ans_to_send`. -/
inductive ans_type_t
  | NOFRAME_TOSEND
  | NWKFRAME_TOSEND
  | USERACK_TOSEND
  | USRFRAME_TORETRANSMIT
  deriving DecidableEq, Repr

/-- Join status. -/
inductive join_status_t
  | NOT_JOINED
  | JOINED
  deriving DecidableEq, Repr

/-- RX window selector (`rx_win_type_t`). -/
inductive rx_win_type_t
  | RX1
  | RX2
  deriving DecidableEq, Repr

/-- Modulation type (`modulation_type_t`). -/
inductive modulation_type_t
  | LORA
  | FSK
  deriving DecidableEq, Repr

/-- Bandwidth enumeration `lr1mac_bandwidth_t` (constructor list from the
`name_bw` trace table at lines 59-60). -/
inductive lr1mac_bandwidth_t
  | BW007 | BW010 | BW015 | BW020 | BW031 | BW041 | BW062
  | BW125 | BW200 | BW250 | BW400 | BW500 | BW800 | BW1600
  deriving DecidableEq, Repr

/-- Result of `lr1_stack_mac_rx_frame_decode` (`rx_packet_type_t`). -/
inductive rx_packet_type_t
  | NO_MORE_VALID_RX_PACKET
  | JOIN_ACCEPT_PACKET
  | NWKRXPACKET
  | USERRX_FOPTSPACKET
  deriving DecidableEq, Repr

/-- Result of `smtc_real_channel_mask_build` (`status_channel_t`). -/
inductive status_channel_t
  | OKCHANNEL
  | ERROR_CHANNEL_CNTL
  | ERROR_CHANNEL_MASK
  deriving DecidableEq, Repr

/-- Modelled from the spec: LoRaWAN MHDR MType codes (`lr1mac_defs.h` is not
in the source slice).  The spec fixes `MType[7:5]` with Join-Request MHDR =
0x00, and the LoRaWAN 1.0.x ordering JoinRequest, JoinAccept,
UnconfirmedDataUp, UnconfirmedDataDown, ConfirmedDataUp, ConfirmedDataDown,
RFU(rejoin). -/
def JOIN_REQUEST : Nat := 0

/-- See `JOIN_REQUEST`. -/
def JOIN_ACCEPT : Nat := 1

/-- See `JOIN_REQUEST`. -/
def UNCONF_DATA_UP : Nat := 2

/-- See `JOIN_REQUEST`. -/
def UNCONF_DATA_DOWN : Nat := 3

/-- See `JOIN_REQUEST`. -/
def CONF_DATA_UP : Nat := 4

/-- See `JOIN_REQUEST`. -/
def CONF_DATA_DOWN : Nat := 5

/-- See `JOIN_REQUEST`. -/
def REJOIN_REQUEST : Nat := 6

/-- Modelled from the spec: major version bits, `Major=0 for R1`
(`LORAWANR1` in `lr1mac_defs.h`, not in the source slice). -/
def LORAWANR1 : Nat := 0

/-- Modelled from the spec: the MAC-command FPort, `FPort = 0 for MAC-only
payload` (`PORTNWK` in `lr1mac_defs.h`, not in the source slice). -/
def PORTNWK : Nat := 0

/-- MIC length in bytes (`MICSIZE` in `lr1mac_defs.h`, not in the source
slice; the spec's wire format has `MIC[4]`). -/
def MICSIZE : Nat := 4

/-- Offset of the FRMPayload for zero FOpts: MHDR(1) + DevAddr(4) +
FCtrl(1) + FCnt(2) + FPort(1) = 9 (`FHDROFFSET` in `lr1mac_defs.h`, not in
the source slice; fixed by `tx_payload_size = app_payload_size + FHDROFFSET
+ tx_fopts_current_length` at line 211 against the spec's `FHDR(8) +
FOptsLen + 1(FPort) + app_size`). -/
def FHDROFFSET : Nat := 9

/-- Modelled from the spec: shortest LoRaWAN frame MHDR(1)+DevAddr(4)+
FCtrl(1)+FCnt(2)+MIC(4) = 12 (`MIN_LORAWAN_PAYLOAD_SIZE` in
`lr1mac_defs.h`, not in the source slice). -/
def MIN_LORAWAN_PAYLOAD_SIZE : Nat := 12

/-- Read one byte from a buffer map; C buffers are `uint8_t[]`, so reads are
truncated to a byte. -/
def rd (b : Nat → Nat) (i : Nat) : Nat := b i % 256

/-- Write one byte into a buffer map (C `buf[i] = v`). -/
def bufSet (b : Nat → Nat) (i v : Nat) : Nat → Nat :=
  fun j => if j = i then v else b j

/-- Copy `n` bytes `src[0..n-1]` over `dst[off..off+n-1]`
(C `memcpy(&dst[off], src, n)`). -/
def memcpyAt (dst : Nat → Nat) (off : Nat) (src : Nat → Nat) (n : Nat) : Nat → Nat :=
  fun j => if off ≤ j ∧ j < off + n then src (j - off) else dst j

/-- First `n` bytes of a buffer as a list. -/
def frameBytes (b : Nat → Nat) (n : Nat) : List Nat :=
  (List.range n).map (rd b)

/-- 32-bit value as 4 little-endian bytes (C `memcpy(dst, (uint8_t*)&x, 4)`
on the little-endian target). -/
def u32le (x : Nat) : List Nat :=
  [x % 256, x / 256 % 256, x / 65536 % 256, x / 16777216 % 256]

/-- Embedding of the `lr1_stack_mac_t` state (fields of
`lr1_stack_mac_layer.h`, restricted to those the embedded functions touch).
Byte buffers are index-to-byte maps plus their explicit size fields, as in
the C structure.  The session keys are not stored here: every use of a key
goes through a crypto oracle (crypto.c is outside the source slice), and
the oracle closes over the key.  `memory_saved` records a call to
`smtc_real_memory_save` and `link_issue` a call to the board hook
`bsp_mcu_handle_lr1mac_issue` (both outside the slice, neither mutates the
MAC state). -/
structure lr1_stack_mac_t where
  dev_addr : Nat := 0
  dev_nonce : Nat := 0
  dev_eui : Nat → Nat := fun _ => 0
  app_eui : Nat → Nat := fun _ => 0
  fcnt_dwn : Nat := 0
  fcnt_up : Nat := 0
  join_status : join_status_t := .NOT_JOINED
  adr_ack_cnt : Nat := 0
  adr_ack_cnt_confirmed_frame : Nat := 0
  adr_ack_limit : Nat := 0
  adr_ack_delay : Nat := 0
  adr_ack_req : Nat := 0
  adr_enable : Nat := 0
  tx_data_rate : Nat := 0
  tx_data_rate_adr : Nat := 0
  tx_power : Nat := 0
  tx_sf : Nat := 7
  tx_fopts_length : Nat := 0
  tx_fopts_lengthsticky : Nat := 0
  tx_fopts_current_length : Nat := 0
  tx_fopts_data : Nat → Nat := fun _ => 0
  tx_fopts_datasticky : Nat → Nat := fun _ => 0
  tx_fopts_current_data : Nat → Nat := fun _ => 0
  nwk_ans : Nat → Nat := fun _ => 0
  nwk_ans_size : Nat := 0
  nwk_payload : Nat → Nat := fun _ => 0
  nwk_payload_size : Nat := 0
  nwk_payload_index : Nat := 0
  tx_payload : Nat → Nat := fun _ => 0
  tx_payload_size : Nat := 0
  app_payload_size : Nat := 0
  tx_fport : Nat := 0
  tx_fctrl : Nat := 0
  tx_mtype : Nat := 0
  tx_major_bits : Nat := 0
  tx_ack_bit : Nat := 0
  rx_ack_bit : Nat := 0
  send_at_time : Bool := false
  type_of_ans_to_send : ans_type_t := .NOFRAME_TOSEND
  nb_trans : Nat := 1
  nb_trans_cpt : Nat := 1
  retry_join_cpt : Nat := 0
  rx_payload : Nat → Nat := fun _ => 0
  rx_payload_size : Nat := 0
  rx_mtype : Nat := 0
  rx_major : Nat := 0
  rx_fctrl : Nat := 0
  rx_fport : Nat := 0
  rx_fopts_length : Nat := 0
  rx_fopts : Nat → Nat := fun _ => 0
  rx_payload_empty : Nat := 0
  available_app_packet : Bool := false
  rx1_delay_s : Nat := 1
  rx1_dr_offset : Nat := 0
  rx2_data_rate : Nat := 0
  rx2_frequency : Nat := 0
  isr_radio_timestamp : Nat := 0
  rx_offset_ms : Int := 0
  rx_window_symb : Nat := 0
  rx_timeout_ms : Nat := 0
  radio_process_state : radio_state_t := .RADIOSTATE_IDLE
  rx1_sf : Nat := 7
  rx1_bw : lr1mac_bandwidth_t := .BW125
  rx2_sf : Nat := 12
  rx2_bw : lr1mac_bandwidth_t := .BW125
  rx1_modulation_type : modulation_type_t := .LORA
  rx2_modulation_type : modulation_type_t := .LORA
  next_time_to_join_seconds : Nat := 0
  first_join_timestamp : Nat := 0
  max_duty_cycle_index : Nat := 0
  max_eirp_dbm : Nat := 0
  uplink_dwell_time : Nat := 0
  downlink_dwell_time : Nat := 0
  tx_duty_cycle_time_off_ms : Nat := 0
  tx_duty_cycle_timestamp_ms : Nat := 0
  memory_saved : Bool := false
  link_issue : Bool := false

/-! ## C9 — `lr1_stack_mac_tx_radio_start` -/

/-- Embedding of `lr1_stack_mac_tx_radio_start` (lines 226-327).  The radio
parameter bundle handed to the planner only copies state fields and regional
constants; the state-mutating effects are: clearing `send_at_time` when it
was set (line 290), and — only when `rp_task_enqueue` answers
`RP_HOOK_STATUS_OK` (line 298), which is the oracle `enqueue_ok` since the
radio planner implementation is outside the source slice — setting the
radio state to `RADIOSTATE_TXON` and incrementing one ADR counter
(lines 313-321). -/
def lr1_stack_mac_tx_radio_start (enqueue_ok : Bool) (st : lr1_stack_mac_t) :
    lr1_stack_mac_t :=
  let st := if st.send_at_time then { st with send_at_time := false } else st
  if enqueue_ok then
    let st := { st with radio_process_state := .RADIOSTATE_TXON }
    if st.tx_mtype = CONF_DATA_UP then
      { st with adr_ack_cnt_confirmed_frame := st.adr_ack_cnt_confirmed_frame + 1 }
    else
      { st with adr_ack_cnt := st.adr_ack_cnt + 1 }
  else st

/-! ## C7 — `lr1_stack_network_next_free_duty_cycle_ms_get` -/

/-- Embedding of `lr1_stack_network_next_free_duty_cycle_ms_get`
(lines 1076-1104); `rtc_now` stands for `bsp_rtc_get_time_ms()`. -/
def lr1_stack_network_next_free_duty_cycle_ms_get
    (tx_duty_cycle_time_off_ms tx_duty_cycle_timestamp_ms rtc_now : Nat) : Int :=
  if tx_duty_cycle_time_off_ms > 0 then
    let delta_t : Nat :=
      if rtc_now ≥ tx_duty_cycle_timestamp_ms then
        rtc_now - tx_duty_cycle_timestamp_ms
      else
        4294967295 - tx_duty_cycle_timestamp_ms + rtc_now
    if delta_t > tx_duty_cycle_time_off_ms then 0
    else toInt32 (tx_duty_cycle_time_off_ms - delta_t)
  else 0

/-- Claim C7's stated formula, written from the spec's words for
comparison: `max(0, time_off_ms − (now − timestamp))` with the elapsed time
computed as wrap-safe unsigned subtraction modulo 2^32. -/
def c7_claimed_next_free (time_off_ms timestamp_ms rtc_now : Nat) : Int :=
  max 0 ((time_off_ms : Int) - ((u32sub rtc_now timestamp_ms : Nat) : Int))

end LR1Mac

namespace LR1Mac

/-- C7 counterexample: at `time_off = 100`, `timestamp = 0xFFFFFFFF`,
`now = 10` the wrapped elapsed time modulo 2^32 is 11, but the code computes
`0xFFFFFFFF - timestamp + now = 10` (one less), so it returns 90 where the
claim's formula gives 89. -/
theorem next_free_duty_cycle_counterexample :
    lr1_stack_network_next_free_duty_cycle_ms_get 100 4294967295 10 = 90 ∧
    c7_claimed_next_free 100 4294967295 10 = 89 := by
  constructor <;> decide

/-- C7 (amended): `lr1_stack_network_next_free_duty_cycle_ms_get` returns
`max(0, time_off_ms − elapsed)` where `elapsed = now − timestamp` when the
clock has not wrapped, and `elapsed` is **one less than** the unsigned
difference `(now − timestamp) mod 2^32` when it has wrapped
(the code uses `0xFFFFFFFF − timestamp + now`). -/
theorem next_free_duty_cycle_spec (time_off ts now : Nat)
    (hoff : time_off < 2147483648) (hts : ts < 4294967296) (hnow : now < 4294967296) :
    lr1_stack_network_next_free_duty_cycle_ms_get time_off ts now =
      max 0 ((time_off : Int) -
        (if ts ≤ now then (now : Int) - ts
         else ((u32sub now ts : Nat) : Int) - 1)) := by
  unfold lr1_stack_network_next_free_duty_cycle_ms_get u32sub toInt32
  by_cases h0 : time_off > 0
  · simp only [if_pos h0]
    by_cases hw : now ≥ ts
    · have : (now + 4294967296 - ts % 4294967296) % 4294967296 = now - ts := by
        omega
      simp only [if_pos hw, if_pos (by omega : ts ≤ now)]
      by_cases hgt : now - ts > time_off
      · simp only [if_pos hgt]
        omega
      · simp only [if_neg hgt]
        have hlt : (time_off - (now - ts)) % 4294967296 < 2147483648 := by omega
        simp only [if_pos hlt]
        omega
    · have hmod : (now + 4294967296 - ts % 4294967296) % 4294967296 =
          4294967296 - ts + now := by
        omega
      simp only [if_neg hw, if_neg (by omega : ¬ ts ≤ now), hmod]
      by_cases hgt : 4294967295 - ts + now > time_off
      · simp only [if_pos hgt]
        omega
      · simp only [if_neg hgt]
        have hlt : (time_off - (4294967295 - ts + now)) % 4294967296 < 2147483648 := by
          omega
        simp only [if_pos hlt]
        omega
  · simp only [if_neg h0]
    omega

/-- Witness for `next_free_duty_cycle_spec` at the wrapped-clock input
`time_off = 100`, `timestamp = 0xFFFFFFFF`, `now = 10`. -/
theorem next_free_duty_cycle_spec_witness :
    (100 : Nat) < 2147483648 ∧ (4294967295 : Nat) < 4294967296 ∧
      (10 : Nat) < 4294967296 ∧
      lr1_stack_network_next_free_duty_cycle_ms_get 100 4294967295 10 =
        max 0 ((100 : Int) -
          (if (4294967295 : Nat) ≤ 10 then (10 : Int) - 4294967295
           else ((u32sub 10 4294967295 : Nat) : Int) - 1)) :=
  ⟨by norm_num, by norm_num, by norm_num,
   next_free_duty_cycle_spec 100 4294967295 10 (by norm_num) (by norm_num) (by norm_num)⟩

/-- C9: in `lr1_stack_mac_tx_radio_start`, exactly when the planner enqueue
succeeds, the radio state becomes `RADIOSTATE_TXON` and exactly one ADR
counter is incremented — `adr_ack_cnt_confirmed_frame` for a confirmed
uplink, `adr_ack_cnt` otherwise; when the planner refuses, both counters
and the radio state are unchanged. -/
theorem tx_radio_start_counters (enqueue_ok : Bool) (st : lr1_stack_mac_t) :
    (lr1_stack_mac_tx_radio_start enqueue_ok st).adr_ack_cnt =
        (if enqueue_ok ∧ st.tx_mtype ≠ CONF_DATA_UP then st.adr_ack_cnt + 1
         else st.adr_ack_cnt) ∧
    (lr1_stack_mac_tx_radio_start enqueue_ok st).adr_ack_cnt_confirmed_frame =
        (if enqueue_ok ∧ st.tx_mtype = CONF_DATA_UP then
           st.adr_ack_cnt_confirmed_frame + 1
         else st.adr_ack_cnt_confirmed_frame) ∧
    (lr1_stack_mac_tx_radio_start enqueue_ok st).radio_process_state =
        (if enqueue_ok then .RADIOSTATE_TXON else st.radio_process_state) := by
  unfold lr1_stack_mac_tx_radio_start
  cases enqueue_ok <;>
    by_cases hm : st.tx_mtype = CONF_DATA_UP <;>
      by_cases hs : st.send_at_time <;>
        simp [hm, hs]

/-! ## Oracles for the external collaborators

The regional layer (`smtc_real_*`), the crypto primitives (`crypto.c`) and
the board support functions are not part of the source slice; every call
the embedded functions make into them goes through one of these records. -/

/-- Regional-parameter oracle (`smtc_real_*` queries plus the
`ADR_LIMIT_CONF_UP` / `NO_RX_PACKET_CNT` parameters, which the spec lists
among the REAL-provided ADR parameters). `next_dr_get` maps the current
`tx_data_rate_adr` to the `tx_data_rate` that `smtc_real_next_dr_get`
installs.  `power_set` maps the LinkADR power index to the resulting
`tx_power`. `snr_pkt_in_db` is the latched SNR byte read by
`dev_status_parser` from the planner's packet status. -/
structure real_oracle_t where
  adr_ack_limit_get : Nat := 64
  adr_ack_delay_get : Nat := 32
  min_dr_channel_get : Nat := 0
  ADR_LIMIT_CONF_UP : Nat := 9999
  NO_RX_PACKET_CNT : Nat := 9999
  next_dr_get : Nat → Nat := id
  get_join_sf5_toa_in_ms : Nat := 0
  is_valid_size : Nat → Nat → Bool := fun _ _ => true
  max_payload_size_get : Nat → Nat := fun _ => 255
  is_acceptable_dr : Nat → Bool := fun _ => true
  is_valid_tx_power : Nat → Bool := fun _ => true
  is_valid_rx1_dr_offset : Nat → Bool := fun _ => true
  is_valid_dr : Nat → Bool := fun _ => true
  is_valid_rx_frequency : Nat → Bool := fun _ => true
  is_valid_tx_frequency : Nat → Bool := fun _ => true
  is_valid_channel_index : Nat → Bool := fun _ => true
  decode_freq_from_buf : Nat → Nat → Nat → Nat := fun _ _ _ => 868100000
  channel_mask_build : Nat → Nat → status_channel_t := fun _ _ => .OKCHANNEL
  tx_frequency_channel_get : Nat → Nat := fun _ => 868100000
  power_set : Nat → Nat := id
  max_eirp_dbm_from_idx : Nat → Nat := fun _ => 16
  battery_level : Nat := 254
  snr_pkt_in_db : Nat := 0

/-- Uplink crypto oracle (`crypto.c` is outside the source slice).
`payload_encrypt b fcnt pt n` stands for
`lora_crypto_payload_encrypt(pt, n, b ? nwk_skey : app_skey, dev_addr,
UP_LINK, fcnt, out)` and returns the cipher bytes indexed from 0;
`add_mic p n fcnt` stands for the 32-bit MIC that
`lora_crypto_add_mic(p, n, nwk_skey, dev_addr, UP_LINK, fcnt)` appends. -/
structure crypto_oracle_t where
  payload_encrypt : Bool → Nat → (Nat → Nat) → Nat → (Nat → Nat) :=
    fun _ _ pt _ => pt
  add_mic : (Nat → Nat) → Nat → Nat → Nat := fun _ _ _ => 0

/-- Modelled from the spec: `smtc_real_dr_decrement` (regional layer, not
in the source slice) — "decrement DR (down to min)". -/
def smtc_real_dr_decrement (dr min_dr : Nat) : Nat :=
  if min_dr < dr then dr - 1 else dr

/-! ## Frame building (`mac_header_set`, `frame_header_set`,
`lr1_stack_mac_tx_frame_build`, `lr1_stack_mac_tx_frame_encrypt`) -/

/-- Embedding of `mac_header_set` (lines 1111-1114):
`tx_payload[0] = ((tx_mtype & 0x7) << 5) + (tx_major_bits & 0x3)`. -/
def mac_header_set (st : lr1_stack_mac_t) : lr1_stack_mac_t :=
  { st with tx_payload :=
      bufSet st.tx_payload 0 (st.tx_mtype % 8 * 32 + st.tx_major_bits % 4) }

/-- Embedding of `frame_header_set` (lines 1116-1130). -/
def frame_header_set (st : lr1_stack_mac_t) : lr1_stack_mac_t :=
  let p := st.tx_payload
  let p := bufSet p 1 (st.dev_addr % 256)
  let p := bufSet p 2 (st.dev_addr / 256 % 256)
  let p := bufSet p 3 (st.dev_addr / 65536 % 256)
  let p := bufSet p 4 (st.dev_addr / 16777216 % 256)
  let p := bufSet p 5 st.tx_fctrl
  let p := bufSet p 6 (st.fcnt_up % 256)
  let p := bufSet p 7 (st.fcnt_up / 256 % 256)
  let p := memcpyAt p 8 st.tx_fopts_current_data st.tx_fopts_current_length
  let p := bufSet p (8 + st.tx_fopts_current_length) st.tx_fport
  { st with tx_payload := p }

/-- Embedding of `lr1_stack_mac_tx_frame_build` (lines 202-212). -/
def lr1_stack_mac_tx_frame_build (st : lr1_stack_mac_t) : lr1_stack_mac_t :=
  let st := { st with tx_fctrl :=
      (st.adr_enable * 128 + st.adr_ack_req * 64 + st.tx_ack_bit * 32 +
       st.tx_fopts_current_length % 16) % 256 }
  let st := { st with tx_ack_bit := 0, rx_ack_bit := 0 }
  let st := mac_header_set st
  let st := frame_header_set st
  { st with tx_payload_size :=
      st.app_payload_size + FHDROFFSET + st.tx_fopts_current_length }

/-- Embedding of `lr1_stack_mac_tx_frame_encrypt` (lines 214-224). -/
def lr1_stack_mac_tx_frame_encrypt (cr : crypto_oracle_t) (st : lr1_stack_mac_t) :
    lr1_stack_mac_t :=
  let off := FHDROFFSET + st.tx_fopts_current_length
  let cipher := cr.payload_encrypt (st.tx_fport == PORTNWK) st.fcnt_up
      (fun i => rd st.tx_payload (off + i)) st.app_payload_size
  let p := memcpyAt st.tx_payload off cipher st.app_payload_size
  let mic := cr.add_mic p st.tx_payload_size st.fcnt_up
  let p := memcpyAt p st.tx_payload_size (fun i => (u32le mic).getD i 0) 4
  { st with tx_payload := p, tx_payload_size := st.tx_payload_size + 4 }

/-! ## `lr1_stack_mac_cmd_ans_cut` -/

/-- Modelled from the spec: the `lr1mac_cmd_mac_ans_size` table
(`lr1mac_defs.h`, not in the source slice) — per-CID size of the emitted
MAC answer, per the spec's command table (LoRaWAN 1.0.x): LinkADRAns 2 B,
DutyCycleAns 1 B, RXParamSetupAns 2 B, DevStatusAns 3 B, NewChannelAns 2 B,
RXTimingSetupAns 1 B, TXParamSetupAns 1 B, DLChannelAns 2 B.  Entries for
CIDs that never occur in a well-formed answer buffer are set to 1. -/
def lr1mac_cmd_mac_ans_size (cid : Nat) : Nat :=
  if cid = 3 then 2
  else if cid = 4 then 1
  else if cid = 5 then 2
  else if cid = 6 then 3
  else if cid = 7 then 2
  else if cid = 8 then 1
  else if cid = 9 then 1
  else if cid = 10 then 2
  else 1

theorem lr1mac_cmd_mac_ans_size_pos (cid : Nat) : 1 ≤ lr1mac_cmd_mac_ans_size cid := by
  unfold lr1mac_cmd_mac_ans_size
  split_ifs <;> omega

/-- Loop of `lr1_stack_mac_cmd_ans_cut` (lines 887-899), with the two
pointers `p_tmp` and `p` as offsets from `nwk_ans`; `bound` is
`MIN(nwk_ans_size_in, max_allowed_size)`. -/
def lr1_stack_mac_cmd_ans_cut_loop (nwk_ans : Nat → Nat)
    (bound max_allowed p_tmp p : Nat) : Nat :=
  if h : p_tmp < bound then
    let q := p_tmp + lr1mac_cmd_mac_ans_size (rd nwk_ans p_tmp)
    if q ≤ max_allowed then
      lr1_stack_mac_cmd_ans_cut_loop nwk_ans bound max_allowed q q
    else p
  else p
  termination_by bound - p_tmp
  decreasing_by
    have := lr1mac_cmd_mac_ans_size_pos (rd nwk_ans p_tmp)
    omega

/-- Embedding of `lr1_stack_mac_cmd_ans_cut` (lines 882-902): truncate the
answer buffer at a command boundary so that it fits `max_allowed_size`. -/
def lr1_stack_mac_cmd_ans_cut (nwk_ans : Nat → Nat)
    (nwk_ans_size_in max_allowed_size : Nat) : Nat :=
  lr1_stack_mac_cmd_ans_cut_loop nwk_ans (min nwk_ans_size_in max_allowed_size)
    max_allowed_size 0 0

/-! ## `lr1_stack_mac_update` (lines 748-880), split into its blocks -/

/-- Lines 750-752: refresh the ADR limits from REAL and reset
`type_of_ans_to_send`. -/
def lr1_stack_mac_update_adr_limits (o : real_oracle_t) (st : lr1_stack_mac_t) :
    lr1_stack_mac_t :=
  { st with adr_ack_limit := o.adr_ack_limit_get,
            adr_ack_delay := o.adr_ack_delay_get,
            type_of_ans_to_send := .NOFRAME_TOSEND }

/-- Lines 754-793: join back-off schedule when not joined
(`current_time_s` is `bsp_rtc_get_time_s()`), otherwise
`smtc_real_next_dr_get`. -/
def lr1_stack_mac_update_join_backoff (o : real_oracle_t) (current_time_s : Nat)
    (st : lr1_stack_mac_t) : lr1_stack_mac_t :=
  if st.join_status = .NOT_JOINED then
    let st := { st with retry_join_cpt := st.retry_join_cpt + 1 }
    let toa := u32 (o.get_join_sf5_toa_in_ms <<< (st.tx_sf - 5))
    if current_time_s < st.first_join_timestamp + 3600 then
      { st with next_time_to_join_seconds := u32 (current_time_s + toa / 10) }
    else if current_time_s < st.first_join_timestamp + 36000 + 3600 then
      { st with next_time_to_join_seconds := u32 (current_time_s + toa) }
    else
      { st with next_time_to_join_seconds := u32 (current_time_s + toa * 10) }
  else
    { st with tx_data_rate := o.next_dr_get st.tx_data_rate_adr }

/-- Lines 794-804: the ADRACKReq window. -/
def lr1_stack_mac_update_adr_ack_req (st : lr1_stack_mac_t) : lr1_stack_mac_t :=
  let st :=
    if st.adr_ack_cnt ≥ st.adr_ack_limit ∧
       st.adr_ack_cnt ≤ st.adr_ack_limit + st.adr_ack_delay then
      { st with adr_ack_req := 1 }
    else st
  if st.adr_ack_cnt < st.adr_ack_limit ∨
     st.adr_ack_cnt > st.adr_ack_limit + st.adr_ack_delay then
    { st with adr_ack_req := 0 }
  else st

/-- Lines 806-813: ADR fallback — decrement the data rate, then clamp
`adr_ack_cnt` back to the limit only when the decremented data rate differs
from the channel minimum. -/
def lr1_stack_mac_update_adr_fallback (o : real_oracle_t) (st : lr1_stack_mac_t) :
    lr1_stack_mac_t :=
  if st.adr_ack_cnt ≥ st.adr_ack_limit + st.adr_ack_delay then
    let st := { st with tx_data_rate_adr :=
        smtc_real_dr_decrement st.tx_data_rate_adr o.min_dr_channel_get }
    if st.tx_data_rate_adr ≠ o.min_dr_channel_get then
      { st with adr_ack_cnt := st.adr_ack_limit }
    else st
  else st

/-- Lines 815-819: confirmed-uplink fallback. -/
def lr1_stack_mac_update_conf_frame (o : real_oracle_t) (st : lr1_stack_mac_t) :
    lr1_stack_mac_t :=
  if st.adr_ack_cnt_confirmed_frame ≥ o.ADR_LIMIT_CONF_UP then
    { st with adr_ack_cnt_confirmed_frame := 0,
              tx_data_rate_adr :=
                smtc_real_dr_decrement st.tx_data_rate_adr o.min_dr_channel_get }
  else st

/-- Lines 820-825: link-lost detection; `bsp_mcu_handle_lr1mac_issue` is
recorded in the `link_issue` flag. -/
def lr1_stack_mac_update_link_check (o : real_oracle_t) (st : lr1_stack_mac_t) :
    lr1_stack_mac_t :=
  if st.adr_ack_cnt + st.adr_ack_cnt_confirmed_frame ≥ o.NO_RX_PACKET_CNT then
    { st with link_issue := true }
  else st

/-- Lines 826-835: retransmission bookkeeping. -/
def lr1_stack_mac_update_nb_trans (st : lr1_stack_mac_t) : lr1_stack_mac_t :=
  if st.nb_trans_cpt ≤ 1 then
    { st with fcnt_up := u32 (st.fcnt_up + 1), nb_trans_cpt := 1 }
  else
    { st with type_of_ans_to_send := .USRFRAME_TORETRANSMIT,
              nb_trans_cpt := st.nb_trans_cpt - 1 }

/-- Lines 837-851: pending MAC answers — spill to `nwk_ans` (and flag a
network frame to send) when sticky + transient exceed 15 bytes, otherwise
latch them into `tx_fopts_current_*`; always clear `tx_fopts_length`. -/
def lr1_stack_mac_update_fopts (st : lr1_stack_mac_t) : lr1_stack_mac_t :=
  let st :=
    if st.tx_fopts_length + st.tx_fopts_lengthsticky > 15 then
      { st with
        nwk_ans_size := st.tx_fopts_lengthsticky + st.tx_fopts_length,
        nwk_ans :=
          memcpyAt (memcpyAt st.nwk_ans 0 st.tx_fopts_datasticky st.tx_fopts_lengthsticky)
            st.tx_fopts_lengthsticky st.tx_fopts_data st.tx_fopts_length,
        type_of_ans_to_send := .NWKFRAME_TOSEND }
    else
      { st with
        tx_fopts_current_length := st.tx_fopts_lengthsticky + st.tx_fopts_length,
        tx_fopts_current_data :=
          memcpyAt
            (memcpyAt st.tx_fopts_current_data 0 st.tx_fopts_datasticky st.tx_fopts_lengthsticky)
            st.tx_fopts_lengthsticky st.tx_fopts_data st.tx_fopts_length }
  { st with tx_fopts_length := 0 }

/-- Lines 853-879: the `switch(type_of_ans_to_send)` — for
`NWKFRAME_TOSEND`, cut the answers to the max payload size if needed, copy
them as the FRMPayload, select `PORTNWK` and an unconfirmed MType, then
build and encrypt the frame. -/
def lr1_stack_mac_update_tx_ans (o : real_oracle_t) (cr : crypto_oracle_t)
    (st : lr1_stack_mac_t) : lr1_stack_mac_t :=
  match st.type_of_ans_to_send with
  | .NWKFRAME_TOSEND =>
      let cut_size :=
        lr1_stack_mac_cmd_ans_cut st.nwk_ans st.nwk_ans_size
          (o.max_payload_size_get st.tx_data_rate)
      let st :=
        if o.is_valid_size st.tx_data_rate st.nwk_ans_size then st
        else { st with nwk_ans_size := cut_size }
      let st := { st with
        tx_payload := memcpyAt st.tx_payload FHDROFFSET st.nwk_ans st.nwk_ans_size,
        app_payload_size := st.nwk_ans_size,
        tx_fport := PORTNWK,
        tx_mtype := UNCONF_DATA_UP }
      let st := lr1_stack_mac_tx_frame_build st
      lr1_stack_mac_tx_frame_encrypt cr st
  | _ => st

/-- Embedding of `lr1_stack_mac_update` (lines 748-880): the blocks above
in source order. -/
def lr1_stack_mac_update (o : real_oracle_t) (cr : crypto_oracle_t)
    (current_time_s : Nat) (st : lr1_stack_mac_t) : lr1_stack_mac_t :=
  let st := lr1_stack_mac_update_adr_limits o st
  let st := lr1_stack_mac_update_join_backoff o current_time_s st
  let st := lr1_stack_mac_update_adr_ack_req st
  let st := lr1_stack_mac_update_adr_fallback o st
  let st := lr1_stack_mac_update_conf_frame o st
  let st := lr1_stack_mac_update_link_check o st
  let st := lr1_stack_mac_update_nb_trans st
  let st := lr1_stack_mac_update_fopts st
  lr1_stack_mac_update_tx_ans o cr st

/-! ## C4 — ADR fallback -/

theorem adr_fields_adr_limits (o : real_oracle_t) (st : lr1_stack_mac_t) :
    (lr1_stack_mac_update_adr_limits o st).adr_ack_cnt = st.adr_ack_cnt ∧
    (lr1_stack_mac_update_adr_limits o st).tx_data_rate_adr = st.tx_data_rate_adr ∧
    (lr1_stack_mac_update_adr_limits o st).adr_ack_cnt_confirmed_frame =
      st.adr_ack_cnt_confirmed_frame ∧
    (lr1_stack_mac_update_adr_limits o st).adr_ack_limit = o.adr_ack_limit_get ∧
    (lr1_stack_mac_update_adr_limits o st).adr_ack_delay = o.adr_ack_delay_get := by
  unfold lr1_stack_mac_update_adr_limits
  exact ⟨rfl, rfl, rfl, rfl, rfl⟩

theorem adr_fields_join_backoff (o : real_oracle_t) (t : Nat) (st : lr1_stack_mac_t) :
    (lr1_stack_mac_update_join_backoff o t st).adr_ack_cnt = st.adr_ack_cnt ∧
    (lr1_stack_mac_update_join_backoff o t st).tx_data_rate_adr = st.tx_data_rate_adr ∧
    (lr1_stack_mac_update_join_backoff o t st).adr_ack_cnt_confirmed_frame =
      st.adr_ack_cnt_confirmed_frame ∧
    (lr1_stack_mac_update_join_backoff o t st).adr_ack_limit = st.adr_ack_limit ∧
    (lr1_stack_mac_update_join_backoff o t st).adr_ack_delay = st.adr_ack_delay := by
  simp only [lr1_stack_mac_update_join_backoff]
  split_ifs <;> simp

theorem adr_fields_adr_ack_req (st : lr1_stack_mac_t) :
    (lr1_stack_mac_update_adr_ack_req st).adr_ack_cnt = st.adr_ack_cnt ∧
    (lr1_stack_mac_update_adr_ack_req st).tx_data_rate_adr = st.tx_data_rate_adr ∧
    (lr1_stack_mac_update_adr_ack_req st).adr_ack_cnt_confirmed_frame =
      st.adr_ack_cnt_confirmed_frame ∧
    (lr1_stack_mac_update_adr_ack_req st).adr_ack_limit = st.adr_ack_limit ∧
    (lr1_stack_mac_update_adr_ack_req st).adr_ack_delay = st.adr_ack_delay := by
  simp only [lr1_stack_mac_update_adr_ack_req]
  split_ifs <;> simp

theorem adr_fallback_effect (o : real_oracle_t) (st : lr1_stack_mac_t)
    (hfire : st.adr_ack_cnt ≥ st.adr_ack_limit + st.adr_ack_delay) :
    (lr1_stack_mac_update_adr_fallback o st).tx_data_rate_adr =
      smtc_real_dr_decrement st.tx_data_rate_adr o.min_dr_channel_get ∧
    (lr1_stack_mac_update_adr_fallback o st).adr_ack_cnt =
      (if smtc_real_dr_decrement st.tx_data_rate_adr o.min_dr_channel_get ≠
          o.min_dr_channel_get then st.adr_ack_limit else st.adr_ack_cnt) ∧
    (lr1_stack_mac_update_adr_fallback o st).adr_ack_cnt_confirmed_frame =
      st.adr_ack_cnt_confirmed_frame := by
  unfold lr1_stack_mac_update_adr_fallback
  simp only [if_pos hfire]
  split_ifs with h <;> simp [h]

theorem conf_frame_skip (o : real_oracle_t) (st : lr1_stack_mac_t)
    (hconf : st.adr_ack_cnt_confirmed_frame < o.ADR_LIMIT_CONF_UP) :
    lr1_stack_mac_update_conf_frame o st = st := by
  unfold lr1_stack_mac_update_conf_frame
  rw [if_neg (by omega)]

theorem adr_fields_link_check (o : real_oracle_t) (st : lr1_stack_mac_t) :
    (lr1_stack_mac_update_link_check o st).adr_ack_cnt = st.adr_ack_cnt ∧
    (lr1_stack_mac_update_link_check o st).tx_data_rate_adr = st.tx_data_rate_adr := by
  simp only [lr1_stack_mac_update_link_check]
  split_ifs <;> simp

theorem adr_fields_nb_trans (st : lr1_stack_mac_t) :
    (lr1_stack_mac_update_nb_trans st).adr_ack_cnt = st.adr_ack_cnt ∧
    (lr1_stack_mac_update_nb_trans st).tx_data_rate_adr = st.tx_data_rate_adr := by
  simp only [lr1_stack_mac_update_nb_trans]
  split_ifs <;> simp

theorem adr_fields_fopts (st : lr1_stack_mac_t) :
    (lr1_stack_mac_update_fopts st).adr_ack_cnt = st.adr_ack_cnt ∧
    (lr1_stack_mac_update_fopts st).tx_data_rate_adr = st.tx_data_rate_adr := by
  simp only [lr1_stack_mac_update_fopts]
  split_ifs <;> simp

theorem adr_fields_tx_frame_build (st : lr1_stack_mac_t) :
    (lr1_stack_mac_tx_frame_build st).adr_ack_cnt = st.adr_ack_cnt ∧
    (lr1_stack_mac_tx_frame_build st).tx_data_rate_adr = st.tx_data_rate_adr := by
  unfold lr1_stack_mac_tx_frame_build mac_header_set frame_header_set
  exact ⟨rfl, rfl⟩

theorem adr_fields_tx_frame_encrypt (cr : crypto_oracle_t) (st : lr1_stack_mac_t) :
    (lr1_stack_mac_tx_frame_encrypt cr st).adr_ack_cnt = st.adr_ack_cnt ∧
    (lr1_stack_mac_tx_frame_encrypt cr st).tx_data_rate_adr = st.tx_data_rate_adr := by
  simp only [lr1_stack_mac_tx_frame_encrypt]
  simp

theorem adr_fields_tx_ans (o : real_oracle_t) (cr : crypto_oracle_t)
    (st : lr1_stack_mac_t) :
    (lr1_stack_mac_update_tx_ans o cr st).adr_ack_cnt = st.adr_ack_cnt ∧
    (lr1_stack_mac_update_tx_ans o cr st).tx_data_rate_adr = st.tx_data_rate_adr := by
  simp only [lr1_stack_mac_update_tx_ans]
  cases h : st.type_of_ans_to_send
  case NWKFRAME_TOSEND =>
    constructor
    · rw [(adr_fields_tx_frame_encrypt cr _).1, (adr_fields_tx_frame_build _).1]
      split_ifs <;> simp
    · rw [(adr_fields_tx_frame_encrypt cr _).2, (adr_fields_tx_frame_build _).2]
      split_ifs <;> simp
  all_goals simp

/-- ADR-relevant effect of the whole `lr1_stack_mac_update` when the
fallback threshold is reached (and the confirmed-uplink fallback is not
triggered). -/
theorem update_adr_effect (o : real_oracle_t) (cr : crypto_oracle_t) (t : Nat)
    (st : lr1_stack_mac_t)
    (hfire : st.adr_ack_cnt ≥ o.adr_ack_limit_get + o.adr_ack_delay_get)
    (hconf : st.adr_ack_cnt_confirmed_frame < o.ADR_LIMIT_CONF_UP) :
    (lr1_stack_mac_update o cr t st).tx_data_rate_adr =
      smtc_real_dr_decrement st.tx_data_rate_adr o.min_dr_channel_get ∧
    (lr1_stack_mac_update o cr t st).adr_ack_cnt =
      (if smtc_real_dr_decrement st.tx_data_rate_adr o.min_dr_channel_get ≠
          o.min_dr_channel_get then o.adr_ack_limit_get else st.adr_ack_cnt) := by
  simp only [lr1_stack_mac_update]
  obtain ⟨l1, l2, l3, l4, l5⟩ := adr_fields_adr_limits o st
  set st1 := lr1_stack_mac_update_adr_limits o st with hst1
  obtain ⟨j1, j2, j3, j4, j5⟩ := adr_fields_join_backoff o t st1
  set st2 := lr1_stack_mac_update_join_backoff o t st1 with hst2
  obtain ⟨a1, a2, a3, a4, a5⟩ := adr_fields_adr_ack_req st2
  set st3 := lr1_stack_mac_update_adr_ack_req st2 with hst3
  have hf3 : st3.adr_ack_cnt ≥ st3.adr_ack_limit + st3.adr_ack_delay := by
    rw [a1, j1, l1, a4, j4, l4, a5, j5, l5]
    exact hfire
  obtain ⟨f1, f2, f3⟩ := adr_fallback_effect o st3 hf3
  set st4 := lr1_stack_mac_update_adr_fallback o st3 with hst4
  have hc4 : st4.adr_ack_cnt_confirmed_frame < o.ADR_LIMIT_CONF_UP := by
    rw [f3, a3, j3, l3]
    exact hconf
  rw [conf_frame_skip o st4 hc4]
  obtain ⟨k1, k2⟩ := adr_fields_link_check o st4
  set st5 := lr1_stack_mac_update_link_check o st4 with hst5
  obtain ⟨n1, n2⟩ := adr_fields_nb_trans st5
  set st6 := lr1_stack_mac_update_nb_trans st5 with hst6
  obtain ⟨p1, p2⟩ := adr_fields_fopts st6
  set st7 := lr1_stack_mac_update_fopts st6 with hst7
  obtain ⟨q1, q2⟩ := adr_fields_tx_ans o cr st7
  have hdr3 : st3.tx_data_rate_adr = st.tx_data_rate_adr := by rw [a2, j2, l2]
  constructor
  · rw [q2, p2, n2, k2, f1, hdr3]
  · rw [q1, p1, n1, k1, f2, hdr3, a1, j1, l1, a4, j4, l4]

theorem adr_fallback_skip (o : real_oracle_t) (st : lr1_stack_mac_t)
    (h : st.adr_ack_cnt < st.adr_ack_limit + st.adr_ack_delay) :
    lr1_stack_mac_update_adr_fallback o st = st := by
  unfold lr1_stack_mac_update_adr_fallback
  rw [if_neg (by omega)]

/-- ADR-relevant effect of `lr1_stack_mac_update` below the fallback
threshold. -/
theorem update_adr_no_fire (o : real_oracle_t) (cr : crypto_oracle_t) (t : Nat)
    (st : lr1_stack_mac_t)
    (hnofire : st.adr_ack_cnt < o.adr_ack_limit_get + o.adr_ack_delay_get)
    (hconf : st.adr_ack_cnt_confirmed_frame < o.ADR_LIMIT_CONF_UP) :
    (lr1_stack_mac_update o cr t st).tx_data_rate_adr = st.tx_data_rate_adr ∧
    (lr1_stack_mac_update o cr t st).adr_ack_cnt = st.adr_ack_cnt := by
  simp only [lr1_stack_mac_update]
  obtain ⟨l1, l2, l3, l4, l5⟩ := adr_fields_adr_limits o st
  set st1 := lr1_stack_mac_update_adr_limits o st with hst1
  obtain ⟨j1, j2, j3, j4, j5⟩ := adr_fields_join_backoff o t st1
  set st2 := lr1_stack_mac_update_join_backoff o t st1 with hst2
  obtain ⟨a1, a2, a3, a4, a5⟩ := adr_fields_adr_ack_req st2
  set st3 := lr1_stack_mac_update_adr_ack_req st2 with hst3
  have hf3 : st3.adr_ack_cnt < st3.adr_ack_limit + st3.adr_ack_delay := by
    rw [a1, j1, l1, a4, j4, l4, a5, j5, l5]
    exact hnofire
  rw [adr_fallback_skip o st3 hf3]
  have hc3 : st3.adr_ack_cnt_confirmed_frame < o.ADR_LIMIT_CONF_UP := by
    rw [a3, j3, l3]
    exact hconf
  rw [conf_frame_skip o st3 hc3]
  obtain ⟨k1, k2⟩ := adr_fields_link_check o st3
  set st5 := lr1_stack_mac_update_link_check o st3 with hst5
  obtain ⟨n1, n2⟩ := adr_fields_nb_trans st5
  set st6 := lr1_stack_mac_update_nb_trans st5 with hst6
  obtain ⟨p1, p2⟩ := adr_fields_fopts st6
  set st7 := lr1_stack_mac_update_fopts st6 with hst7
  obtain ⟨q1, q2⟩ := adr_fields_tx_ans o cr st7
  constructor
  · rw [q2, p2, n2, k2, a2, j2, l2]
  · rw [q1, p1, n1, k1, a1, j1, l1]

theorem smtc_real_dr_decrement_self (m : Nat) : smtc_real_dr_decrement m m = m := by
  unfold smtc_real_dr_decrement
  simp

theorem radio_start_unconf_fields (st : lr1_stack_mac_t)
    (h : st.tx_mtype ≠ CONF_DATA_UP) :
    (lr1_stack_mac_tx_radio_start true st).adr_ack_cnt = st.adr_ack_cnt + 1 ∧
    (lr1_stack_mac_tx_radio_start true st).tx_data_rate_adr = st.tx_data_rate_adr ∧
    (lr1_stack_mac_tx_radio_start true st).adr_ack_cnt_confirmed_frame =
      st.adr_ack_cnt_confirmed_frame := by
  simp only [lr1_stack_mac_tx_radio_start]
  split_ifs <;> simp_all

/-- Regional oracle for the concrete scenarios: `ADR_ACK_LIMIT` = 64,
`ADR_ACK_DELAY` = 32, minimum DR 0, every size/DR valid (the record
defaults). -/
def o_default : real_oracle_t := {}

/-- Crypto oracle for the concrete scenarios (identity encryption, zero
MIC). -/
def cr_default : crypto_oracle_t := {}

/-- Joined session about to send unconfirmed uplinks, starting at DR 5. -/
def c4_init : lr1_stack_mac_t :=
  { join_status := .JOINED, tx_mtype := UNCONF_DATA_UP, tx_data_rate_adr := 5 }

/-- One unconfirmed uplink with no downlink: a successful planner enqueue
(`lr1_stack_mac_tx_radio_start`, which increments `adr_ack_cnt`) followed by
the dispatch tick (`lr1_stack_mac_update`). -/
def c4_uplink (st : lr1_stack_mac_t) : lr1_stack_mac_t :=
  lr1_stack_mac_update o_default cr_default 0 (lr1_stack_mac_tx_radio_start true st)

/-- `n` consecutive unconfirmed uplinks without any downlink. -/
def c4_iter : Nat → lr1_stack_mac_t → lr1_stack_mac_t
  | 0, st => st
  | n + 1, st => c4_iter n (c4_uplink st)

/-- Effect of one `c4_uplink` on the pair `(adr_ack_cnt, tx_data_rate_adr)`
under the `o_default` parameters (limit 64, delay 32, min DR 0): count the
uplink; at the threshold 96 decrement the DR and clamp back to 64 only if
the result is still above 0. -/
def c4_abs_step (s : Nat × Nat) : Nat × Nat :=
  let cnt := s.1 + 1
  if cnt ≥ 96 then
    let dr := smtc_real_dr_decrement s.2 0
    (if dr ≠ 0 then 64 else cnt, dr)
  else (cnt, s.2)

/-- Iterated `c4_abs_step`. -/
def c4_abs_iter : Nat → Nat × Nat → Nat × Nat
  | 0, s => s
  | n + 1, s => c4_abs_iter n (c4_abs_step s)

theorem radio_start_misc_fields (st : lr1_stack_mac_t) :
    (lr1_stack_mac_tx_radio_start true st).tx_mtype = st.tx_mtype ∧
    (lr1_stack_mac_tx_radio_start true st).tx_fopts_length = st.tx_fopts_length ∧
    (lr1_stack_mac_tx_radio_start true st).tx_fopts_lengthsticky =
      st.tx_fopts_lengthsticky := by
  simp only [lr1_stack_mac_tx_radio_start]
  split_ifs <;> simp

theorem misc_fields_adr_limits (o : real_oracle_t) (st : lr1_stack_mac_t) :
    (lr1_stack_mac_update_adr_limits o st).tx_mtype = st.tx_mtype ∧
    (lr1_stack_mac_update_adr_limits o st).tx_fopts_length = st.tx_fopts_length ∧
    (lr1_stack_mac_update_adr_limits o st).tx_fopts_lengthsticky =
      st.tx_fopts_lengthsticky ∧
    (lr1_stack_mac_update_adr_limits o st).type_of_ans_to_send =
      .NOFRAME_TOSEND := by
  simp only [lr1_stack_mac_update_adr_limits]
  simp

theorem misc_fields_join_backoff (o : real_oracle_t) (t : Nat)
    (st : lr1_stack_mac_t) :
    (lr1_stack_mac_update_join_backoff o t st).tx_mtype = st.tx_mtype ∧
    (lr1_stack_mac_update_join_backoff o t st).tx_fopts_length =
      st.tx_fopts_length ∧
    (lr1_stack_mac_update_join_backoff o t st).tx_fopts_lengthsticky =
      st.tx_fopts_lengthsticky ∧
    (lr1_stack_mac_update_join_backoff o t st).type_of_ans_to_send =
      st.type_of_ans_to_send := by
  simp only [lr1_stack_mac_update_join_backoff]
  split_ifs <;> simp

theorem misc_fields_adr_ack_req (st : lr1_stack_mac_t) :
    (lr1_stack_mac_update_adr_ack_req st).tx_mtype = st.tx_mtype ∧
    (lr1_stack_mac_update_adr_ack_req st).tx_fopts_length = st.tx_fopts_length ∧
    (lr1_stack_mac_update_adr_ack_req st).tx_fopts_lengthsticky =
      st.tx_fopts_lengthsticky ∧
    (lr1_stack_mac_update_adr_ack_req st).type_of_ans_to_send =
      st.type_of_ans_to_send := by
  simp only [lr1_stack_mac_update_adr_ack_req]
  split_ifs <;> simp

theorem misc_fields_adr_fallback (o : real_oracle_t) (st : lr1_stack_mac_t) :
    (lr1_stack_mac_update_adr_fallback o st).tx_mtype = st.tx_mtype ∧
    (lr1_stack_mac_update_adr_fallback o st).tx_fopts_length =
      st.tx_fopts_length ∧
    (lr1_stack_mac_update_adr_fallback o st).tx_fopts_lengthsticky =
      st.tx_fopts_lengthsticky ∧
    (lr1_stack_mac_update_adr_fallback o st).type_of_ans_to_send =
      st.type_of_ans_to_send := by
  simp only [lr1_stack_mac_update_adr_fallback]
  split_ifs <;> simp

theorem misc_fields_link_check (o : real_oracle_t) (st : lr1_stack_mac_t) :
    (lr1_stack_mac_update_link_check o st).tx_mtype = st.tx_mtype ∧
    (lr1_stack_mac_update_link_check o st).tx_fopts_length = st.tx_fopts_length ∧
    (lr1_stack_mac_update_link_check o st).tx_fopts_lengthsticky =
      st.tx_fopts_lengthsticky ∧
    (lr1_stack_mac_update_link_check o st).type_of_ans_to_send =
      st.type_of_ans_to_send ∧
    (lr1_stack_mac_update_link_check o st).adr_ack_cnt_confirmed_frame =
      st.adr_ack_cnt_confirmed_frame := by
  simp only [lr1_stack_mac_update_link_check]
  split_ifs <;> simp

theorem misc_fields_nb_trans (st : lr1_stack_mac_t) :
    (lr1_stack_mac_update_nb_trans st).tx_mtype = st.tx_mtype ∧
    (lr1_stack_mac_update_nb_trans st).tx_fopts_length = st.tx_fopts_length ∧
    (lr1_stack_mac_update_nb_trans st).tx_fopts_lengthsticky =
      st.tx_fopts_lengthsticky ∧
    (lr1_stack_mac_update_nb_trans st).adr_ack_cnt_confirmed_frame =
      st.adr_ack_cnt_confirmed_frame ∧
    ((lr1_stack_mac_update_nb_trans st).type_of_ans_to_send =
        st.type_of_ans_to_send ∨
      (lr1_stack_mac_update_nb_trans st).type_of_ans_to_send =
        .USRFRAME_TORETRANSMIT) := by
  simp only [lr1_stack_mac_update_nb_trans]
  split_ifs <;> simp

theorem misc_fields_fopts (st : lr1_stack_mac_t)
    (hfl : st.tx_fopts_length = 0) (hfs : st.tx_fopts_lengthsticky = 0) :
    (lr1_stack_mac_update_fopts st).tx_mtype = st.tx_mtype ∧
    (lr1_stack_mac_update_fopts st).tx_fopts_length = 0 ∧
    (lr1_stack_mac_update_fopts st).tx_fopts_lengthsticky = 0 ∧
    (lr1_stack_mac_update_fopts st).type_of_ans_to_send =
      st.type_of_ans_to_send ∧
    (lr1_stack_mac_update_fopts st).adr_ack_cnt_confirmed_frame =
      st.adr_ack_cnt_confirmed_frame := by
  simp only [lr1_stack_mac_update_fopts]
  rw [if_neg (by omega)]
  simp [hfs]

theorem tx_ans_skip (o : real_oracle_t) (cr : crypto_oracle_t)
    (st : lr1_stack_mac_t)
    (hty : st.type_of_ans_to_send ≠ .NWKFRAME_TOSEND) :
    lr1_stack_mac_update_tx_ans o cr st = st := by
  cases h : st.type_of_ans_to_send
  case NWKFRAME_TOSEND => exact absurd h hty
  all_goals simp only [lr1_stack_mac_update_tx_ans, h]

/-- `lr1_stack_mac_update` preserves the MType, keeps a below-threshold
confirmed counter, and keeps empty pending-FOpts queues empty. -/
theorem update_misc_fields (o : real_oracle_t) (cr : crypto_oracle_t) (t : Nat)
    (st : lr1_stack_mac_t)
    (hconf : st.adr_ack_cnt_confirmed_frame < o.ADR_LIMIT_CONF_UP)
    (hfl : st.tx_fopts_length = 0) (hfs : st.tx_fopts_lengthsticky = 0) :
    (lr1_stack_mac_update o cr t st).tx_mtype = st.tx_mtype ∧
    (lr1_stack_mac_update o cr t st).adr_ack_cnt_confirmed_frame =
      st.adr_ack_cnt_confirmed_frame ∧
    (lr1_stack_mac_update o cr t st).tx_fopts_length = 0 ∧
    (lr1_stack_mac_update o cr t st).tx_fopts_lengthsticky = 0 := by
  simp only [lr1_stack_mac_update]
  obtain ⟨la, lb, lc, ld⟩ := misc_fields_adr_limits o st
  obtain ⟨-, -, l3, -, -⟩ := adr_fields_adr_limits o st
  set st1 := lr1_stack_mac_update_adr_limits o st with hst1
  obtain ⟨ja, jb, jc, jd⟩ := misc_fields_join_backoff o t st1
  obtain ⟨-, -, j3, -, -⟩ := adr_fields_join_backoff o t st1
  set st2 := lr1_stack_mac_update_join_backoff o t st1 with hst2
  obtain ⟨aa, ab, ac, ad⟩ := misc_fields_adr_ack_req st2
  obtain ⟨-, -, a3, -, -⟩ := adr_fields_adr_ack_req st2
  set st3 := lr1_stack_mac_update_adr_ack_req st2 with hst3
  obtain ⟨fa, fb, fc, fd⟩ := misc_fields_adr_fallback o st3
  set st4 := lr1_stack_mac_update_adr_fallback o st3 with hst4
  have hconf4 : st4.adr_ack_cnt_confirmed_frame = st.adr_ack_cnt_confirmed_frame := by
    have : st4.adr_ack_cnt_confirmed_frame = st3.adr_ack_cnt_confirmed_frame := by
      simp only [hst4, lr1_stack_mac_update_adr_fallback]
      split_ifs <;> simp
    rw [this, a3, j3, l3]
  rw [conf_frame_skip o st4 (by rw [hconf4]; exact hconf)]
  obtain ⟨ka, kb, kc, kd, ke⟩ := misc_fields_link_check o st4
  set st5 := lr1_stack_mac_update_link_check o st4 with hst5
  obtain ⟨na, nb, nc, nd, ne⟩ := misc_fields_nb_trans st5
  set st6 := lr1_stack_mac_update_nb_trans st5 with hst6
  have hfl6 : st6.tx_fopts_length = 0 := by rw [nb, kb, fb, ab, jb, lb, hfl]
  have hfs6 : st6.tx_fopts_lengthsticky = 0 := by rw [nc, kc, fc, ac, jc, lc, hfs]
  obtain ⟨pa, pb, pc, pd, pe⟩ := misc_fields_fopts st6 hfl6 hfs6
  set st7 := lr1_stack_mac_update_fopts st6 with hst7
  have hty7 : st7.type_of_ans_to_send ≠ .NWKFRAME_TOSEND := by
    rw [pd]
    rcases ne with h | h
    · rw [h, kd, fd, ad, jd, ld]
      intro hc
      exact absurd hc (by simp)
    · rw [h]
      intro hc
      exact absurd hc (by simp)
  rw [tx_ans_skip o cr st7 hty7]
  refine ⟨?_, ?_, pb, pc⟩
  · rw [pa, na, ka, fa, aa, ja, la]
  · rw [pe, nd, ke, hconf4]

/-- One `c4_uplink` tracks `c4_abs_step` on `(adr_ack_cnt,
tx_data_rate_adr)` and preserves the trace invariants. -/
theorem c4_uplink_abs (st : lr1_stack_mac_t)
    (hmt : st.tx_mtype = UNCONF_DATA_UP)
    (hconf : st.adr_ack_cnt_confirmed_frame = 0)
    (hfl : st.tx_fopts_length = 0) (hfs : st.tx_fopts_lengthsticky = 0) :
    ((c4_uplink st).adr_ack_cnt, (c4_uplink st).tx_data_rate_adr) =
      c4_abs_step (st.adr_ack_cnt, st.tx_data_rate_adr) ∧
    (c4_uplink st).tx_mtype = UNCONF_DATA_UP ∧
    (c4_uplink st).adr_ack_cnt_confirmed_frame = 0 ∧
    (c4_uplink st).tx_fopts_length = 0 ∧
    (c4_uplink st).tx_fopts_lengthsticky = 0 := by
  have hne : st.tx_mtype ≠ CONF_DATA_UP := by
    rw [hmt]
    decide
  obtain ⟨r1, r2, r3⟩ := radio_start_unconf_fields st hne
  obtain ⟨m1, m2, m3⟩ := radio_start_misc_fields st
  set st0 := lr1_stack_mac_tx_radio_start true st with hst0
  have hconf0 : st0.adr_ack_cnt_confirmed_frame < o_default.ADR_LIMIT_CONF_UP := by
    rw [r3, hconf]
    decide
  have hmisc := update_misc_fields o_default cr_default 0 st0 hconf0
    (by rw [m2, hfl]) (by rw [m3, hfs])
  unfold c4_uplink
  rw [← hst0]
  refine ⟨?_, by rw [hmisc.1, m1, hmt], by rw [hmisc.2.1, r3, hconf],
    hmisc.2.2.1, hmisc.2.2.2⟩
  by_cases hfire : st0.adr_ack_cnt ≥ o_default.adr_ack_limit_get +
      o_default.adr_ack_delay_get
  · obtain ⟨e1, e2⟩ := update_adr_effect o_default cr_default 0 st0 hfire hconf0
    rw [show o_default.min_dr_channel_get = 0 from rfl] at e1 e2
    rw [show o_default.adr_ack_limit_get = 64 from rfl] at e2
    have hfire' : st.adr_ack_cnt + 1 ≥ 96 := by
      have h96 : o_default.adr_ack_limit_get + o_default.adr_ack_delay_get = 96 := rfl
      omega
    simp only [c4_abs_step, if_pos hfire', e1, e2, r1, r2]
  · obtain ⟨e1, e2⟩ := update_adr_no_fire o_default cr_default 0 st0 (by omega) hconf0
    have hfire' : ¬ st.adr_ack_cnt + 1 ≥ 96 := by
      have h96 : o_default.adr_ack_limit_get + o_default.adr_ack_delay_get = 96 := rfl
      omega
    simp only [c4_abs_step, if_neg hfire', e1, e2, r1, r2]

/-- `c4_iter` tracks `c4_abs_iter`. -/
theorem c4_iter_abs (n : Nat) : ∀ (st : lr1_stack_mac_t),
    st.tx_mtype = UNCONF_DATA_UP →
    st.adr_ack_cnt_confirmed_frame = 0 →
    st.tx_fopts_length = 0 →
    st.tx_fopts_lengthsticky = 0 →
    ((c4_iter n st).adr_ack_cnt, (c4_iter n st).tx_data_rate_adr) =
      c4_abs_iter n (st.adr_ack_cnt, st.tx_data_rate_adr) := by
  induction n with
  | zero => intro st _ _ _ _; rfl
  | succ n ih =>
      intro st hmt hconf hfl hfs
      obtain ⟨habs, h1, h2, h3, h4⟩ := c4_uplink_abs st hmt hconf hfl hfs
      show ((c4_iter n (c4_uplink st)).adr_ack_cnt,
          (c4_iter n (c4_uplink st)).tx_data_rate_adr) =
        c4_abs_iter n (c4_abs_step (st.adr_ack_cnt, st.tx_data_rate_adr))
      rw [ih (c4_uplink st) h1 h2 h3 h4, habs]

set_option maxRecDepth 4000 in
/-- C4 counterexample: with `ADR_ACK_LIMIT` = 64, `ADR_ACK_DELAY` = 32 and
minimum DR 0, a state at DR 1 with `adr_ack_cnt` = 96 is decremented to
DR 0 — the data rate **was actually decreased** — yet `adr_ack_cnt` stays
at 96 instead of being clamped back to 64, because the code clamps only
when the post-decrement DR differs from the minimum. -/
theorem adr_fallback_counterexample :
    (lr1_stack_mac_update o_default cr_default 0
        { c4_init with tx_data_rate_adr := 1, adr_ack_cnt := 96 }).tx_data_rate_adr = 0 ∧
    (lr1_stack_mac_update o_default cr_default 0
        { c4_init with tx_data_rate_adr := 1, adr_ack_cnt := 96 }).adr_ack_cnt = 96 := by
  constructor <;> rfl

set_option maxRecDepth 8000 in
/-- C4 (amended): whenever `adr_ack_cnt ≥ ADR_ACK_LIMIT + ADR_ACK_DELAY` at
`lr1_stack_mac_update`, the data rate is decremented (not below the
minimum) and `adr_ack_cnt` is clamped back to `ADR_ACK_LIMIT` exactly when
the decremented data rate is still above the channel minimum (a decrement
that lands on the minimum does not clamp); with `ADR_ACK_LIMIT` = 64,
`ADR_ACK_DELAY` = 32, starting DR 5 and min DR 0, after 96 unconfirmed
uplinks without any downlink the DR is 4 and `adr_ack_cnt` is 64; and once
the DR sits at the minimum, each further uplink grows `adr_ack_cnt` by one
while the DR stays at the minimum. -/
theorem adr_fallback_spec :
    (∀ (o : real_oracle_t) (cr : crypto_oracle_t) (t : Nat) (st : lr1_stack_mac_t),
        st.adr_ack_cnt ≥ o.adr_ack_limit_get + o.adr_ack_delay_get →
        st.adr_ack_cnt_confirmed_frame < o.ADR_LIMIT_CONF_UP →
        (lr1_stack_mac_update o cr t st).tx_data_rate_adr =
            smtc_real_dr_decrement st.tx_data_rate_adr o.min_dr_channel_get ∧
        (lr1_stack_mac_update o cr t st).adr_ack_cnt =
            (if smtc_real_dr_decrement st.tx_data_rate_adr o.min_dr_channel_get ≠
                o.min_dr_channel_get then o.adr_ack_limit_get else st.adr_ack_cnt)) ∧
    ((c4_iter 96 c4_init).tx_data_rate_adr = 4 ∧ (c4_iter 96 c4_init).adr_ack_cnt = 64) ∧
    (∀ (o : real_oracle_t) (cr : crypto_oracle_t) (t : Nat) (st : lr1_stack_mac_t),
        st.tx_data_rate_adr = o.min_dr_channel_get →
        st.adr_ack_cnt_confirmed_frame < o.ADR_LIMIT_CONF_UP →
        st.tx_mtype ≠ CONF_DATA_UP →
        (lr1_stack_mac_update o cr t (lr1_stack_mac_tx_radio_start true st)).adr_ack_cnt =
            st.adr_ack_cnt + 1 ∧
        (lr1_stack_mac_update o cr t
            (lr1_stack_mac_tx_radio_start true st)).tx_data_rate_adr =
          o.min_dr_channel_get) := by
  refine ⟨fun o cr t st hfire hconf => update_adr_effect o cr t st hfire hconf, ?_, ?_⟩
  · have h := c4_iter_abs 96 c4_init rfl rfl rfl rfl
    have habs : c4_abs_iter 96 (c4_init.adr_ack_cnt, c4_init.tx_data_rate_adr) =
        (64, 4) := by decide
    rw [habs, Prod.mk.injEq] at h
    exact ⟨h.2, h.1⟩
  · intro o cr t st hmin hconf hmt
    obtain ⟨r1, r2, r3⟩ := radio_start_unconf_fields st hmt
    set st0 := lr1_stack_mac_tx_radio_start true st with hst0
    have hconf0 : st0.adr_ack_cnt_confirmed_frame < o.ADR_LIMIT_CONF_UP := by
      rw [r3]; exact hconf
    by_cases hfire : st0.adr_ack_cnt ≥ o.adr_ack_limit_get + o.adr_ack_delay_get
    · obtain ⟨e1, e2⟩ := update_adr_effect o cr t st0 hfire hconf0
      rw [r2, hmin, smtc_real_dr_decrement_self] at e1 e2
      simp only [ne_eq, not_true_eq_false, if_neg, ite_false] at e2
      rw [r1] at e2
      exact ⟨by rw [e2], by rw [e1]⟩
    · obtain ⟨e1, e2⟩ := update_adr_no_fire o cr t st0 (by omega) hconf0
      rw [r2, hmin] at e1
      rw [r1] at e2
      exact ⟨by rw [e2], by rw [e1]⟩

/-- Witness for `adr_fallback_spec`: its first conjunct applied at the
concrete oracle (limit 64, delay 32, min DR 0) and the state DR 5,
`adr_ack_cnt` = 96, where the decremented DR 4 is above the minimum, so the
counter is clamped to 64. -/
theorem adr_fallback_spec_witness :
    ({ c4_init with adr_ack_cnt := 96 } : lr1_stack_mac_t).adr_ack_cnt ≥
        o_default.adr_ack_limit_get + o_default.adr_ack_delay_get ∧
    ({ c4_init with adr_ack_cnt := 96 } : lr1_stack_mac_t).adr_ack_cnt_confirmed_frame <
        o_default.ADR_LIMIT_CONF_UP ∧
    ((lr1_stack_mac_update o_default cr_default 0
        { c4_init with adr_ack_cnt := 96 }).tx_data_rate_adr =
       smtc_real_dr_decrement
         ({ c4_init with adr_ack_cnt := 96 } : lr1_stack_mac_t).tx_data_rate_adr
         o_default.min_dr_channel_get ∧
     (lr1_stack_mac_update o_default cr_default 0
        { c4_init with adr_ack_cnt := 96 }).adr_ack_cnt =
       (if smtc_real_dr_decrement
             ({ c4_init with adr_ack_cnt := 96 } : lr1_stack_mac_t).tx_data_rate_adr
             o_default.min_dr_channel_get ≠ o_default.min_dr_channel_get
        then o_default.adr_ack_limit_get
        else ({ c4_init with adr_ack_cnt := 96 } : lr1_stack_mac_t).adr_ack_cnt)) :=
  ⟨by decide, by decide,
   adr_fallback_spec.1 o_default cr_default 0 { c4_init with adr_ack_cnt := 96 }
     (by decide) (by decide)⟩

/-! ## C3 — FOpts overflow to a port-0 network frame -/

/-- State reaching `lr1_stack_mac_update` with 20 bytes of pending MAC
answers (8 sticky + 12 transient, > 15) while `tx_fopts_current_length` = 4
is left over from the previously built frame (a prior `update` latched a
4-byte answer set into `tx_fopts_current_*` and the frame was sent). -/
def c3_state : lr1_stack_mac_t :=
  { join_status := .JOINED,
    tx_mtype := UNCONF_DATA_UP,
    tx_fopts_current_length := 4,
    tx_fopts_lengthsticky := 8,
    tx_fopts_length := 12 }

/-- C3, behaviour of the code at the failing input: with 20 pending answer
bytes the update does flag a network frame on FPort 0 (`PORTNWK`), but the
built frame's FCtrl FOptsLen field is the stale `tx_fopts_current_length`
= 4, not 0 — `lr1_stack_mac_update` never resets `tx_fopts_current_length`
in the overflow branch (lines 837-843), and `lr1_stack_mac_tx_frame_build`
puts `tx_fopts_current_length & 0x0F` into FCtrl (line 206) and writes that
many FOpts bytes into the FHDR (lines 1125-1128), overlapping the copied
FRMPayload. -/
theorem nwk_frame_stale_fopts :
    (lr1_stack_mac_update o_default cr_default 0 c3_state).type_of_ans_to_send =
        .NWKFRAME_TOSEND ∧
    (lr1_stack_mac_update o_default cr_default 0 c3_state).tx_fport = PORTNWK ∧
    (lr1_stack_mac_update o_default cr_default 0 c3_state).tx_fctrl % 16 = 4 ∧
    (lr1_stack_mac_update o_default cr_default 0 c3_state).tx_fopts_current_length = 4 ∧
    (lr1_stack_mac_update o_default cr_default 0 c3_state).nwk_ans_size = 20 := by
  refine ⟨rfl, rfl, ?_, rfl, rfl⟩
  rfl

/-! ## C2 — downlink decode and the FCntDown commit -/

/-- Downlink crypto oracle (`crypto.c` is not in the source slice).
`join_decrypt pt n` stands for `join_decrypt(pt, n, app_key, out)`;
`check_join_mic p n mic` for `check_join_mic(p, n, app_key, mic)`;
`check_mic p n fcnt mic` for
`check_mic(p, n, nwk_skey, dev_addr, fcnt, mic)` (status result);
`payload_decrypt b src n fcnt` for `payload_decrypt(src, n,
b ? nwk_skey : app_skey, dev_addr, 1, fcnt, out)`. -/
structure rx_crypto_t where
  join_decrypt : (Nat → Nat) → Nat → (Nat → Nat) := fun pt _ => pt
  check_join_mic : (Nat → Nat) → Nat → Nat → Int := fun _ _ _ => OKLORAWAN
  check_mic : (Nat → Nat) → Nat → Nat → Nat → Int := fun _ _ _ _ => OKLORAWAN
  payload_decrypt : Bool → (Nat → Nat) → Nat → Nat → (Nat → Nat) :=
    fun _ src _ _ => src

/-- Embedding of `rx_payload_size_check` (lines 1199-1209). -/
def rx_payload_size_check (st : lr1_stack_mac_t) : Int :=
  if st.rx_payload_size < MIN_LORAWAN_PAYLOAD_SIZE then ERRORLORAWAN else OKLORAWAN

/-- Embedding of `rx_mhdr_extract` (lines 1211-1225): extract MType/major,
reject uplink MTypes, latch `tx_ack_bit` for a confirmed downlink. -/
def rx_mhdr_extract (st : lr1_stack_mac_t) : lr1_stack_mac_t × Int :=
  let st := { st with rx_mtype := rd st.rx_payload 0 / 32,
                      rx_major := rd st.rx_payload 0 % 4 }
  let status :=
    if st.rx_mtype = JOIN_REQUEST ∨ st.rx_mtype = UNCONF_DATA_UP ∨
       st.rx_mtype = CONF_DATA_UP ∨ st.rx_mtype = REJOIN_REQUEST then
      ERRORLORAWAN
    else OKLORAWAN
  let st := { st with tx_ack_bit := if st.rx_mtype = CONF_DATA_DOWN then 1 else 0 }
  (st, status)

/-- Embedding of `rx_fhdr_extract` (lines 1227-1258): DevAddr check, FCtrl,
16-bit FCnt, FOpts copy, FPort / empty-payload detection.  Returns the
updated state, the extracted `fcnt_dwn_tmp` and the status. -/
def rx_fhdr_extract (st : lr1_stack_mac_t) (dev_addr : Nat) :
    lr1_stack_mac_t × Nat × Int :=
  let dev_addr_tmp := rd st.rx_payload 1 + rd st.rx_payload 2 * 256 +
      rd st.rx_payload 3 * 65536 + rd st.rx_payload 4 * 16777216
  let status := if dev_addr_tmp = dev_addr then OKLORAWAN else ERRORLORAWAN
  let st := { st with rx_fctrl := rd st.rx_payload 5 }
  let fcnt_dwn_tmp := (rd st.rx_payload 6 + rd st.rx_payload 7 * 256) % 65536
  let st := { st with rx_fopts_length := st.rx_fctrl % 16 }
  let fopts := memcpyAt st.rx_fopts 0 (fun i => st.rx_payload (8 + i)) st.rx_fopts_length
  let st := { st with rx_fopts := fopts }
  let st :=
    if st.rx_payload_size > 8 + MICSIZE + st.rx_fopts_length then
      { st with rx_fport := rd st.rx_payload (8 + st.rx_fopts_length),
                rx_payload_empty := 0 }
    else
      { st with rx_payload_empty := 1 }
  (st, fcnt_dwn_tmp, status)

/-- Four little-endian bytes at `off` read as a 32-bit value
(C `memcpy((uint8_t*)&mic_in, &buf[off], MICSIZE)`). -/
def read_u32le (b : Nat → Nat) (off : Nat) : Nat :=
  rd b off + rd b (off + 1) * 256 + rd b (off + 2) * 65536 +
    rd b (off + 3) * 16777216

/-- The bookkeeping right after a successful MIC check in
`lr1_stack_mac_rx_frame_decode` (lines 671-694): reset the ADR counters and
the sticky FOpts length, reset `nb_trans_cpt` unless a confirmed uplink is
still unacknowledged, and latch `rx_ack_bit` when a confirmed uplink got
its ACK. -/
def rx_ack_handle (st : lr1_stack_mac_t) : lr1_stack_mac_t :=
  let st := { st with adr_ack_cnt := 0, adr_ack_cnt_confirmed_frame := 0,
                      tx_fopts_lengthsticky := 0 }
  let st :=
    if ¬ (st.rx_fctrl / 32 % 2 ≠ 1 ∧ st.tx_mtype = CONF_DATA_UP) then
      { st with nb_trans_cpt := 1 }
    else st
  if st.rx_fctrl / 32 % 2 = 1 ∧ st.tx_mtype = CONF_DATA_UP then
    { st with rx_ack_bit := 1 }
  else st

/-- The payload dispatch of `lr1_stack_mac_rx_frame_decode` (lines
695-741): route the FRMPayload / FOpts to the network or application
according to FPort and emptiness. -/
def rx_payload_dispatch (cx : rx_crypto_t) (st : lr1_stack_mac_t) :
    lr1_stack_mac_t × rx_packet_type_t :=
  if st.rx_payload_empty = 0 then
    let st := { st with
      rx_payload_size := st.rx_payload_size - FHDROFFSET - st.rx_fopts_length }
    if st.rx_fport = 0 then
      if st.rx_fopts_length = 0 then
        let dec := cx.payload_decrypt true
            (fun i => st.rx_payload (FHDROFFSET + i)) st.rx_payload_size st.fcnt_dwn
        let st := { st with
          nwk_payload := memcpyAt st.nwk_payload 0 dec st.rx_payload_size,
          nwk_payload_size := st.rx_payload_size }
        (st, .NWKRXPACKET)
      else
        (st, .NO_MORE_VALID_RX_PACKET)
    else
      let dec := cx.payload_decrypt false
          (fun i => st.rx_payload (FHDROFFSET + st.rx_fopts_length + i))
          st.rx_payload_size st.fcnt_dwn
      let st := { st with
        rx_payload := memcpyAt st.rx_payload 0 dec st.rx_payload_size }
      let r :=
        if st.rx_fopts_length ≠ 0 then
          ({ st with
              nwk_payload := memcpyAt st.nwk_payload 0 st.rx_fopts st.rx_fopts_length,
              nwk_payload_size := st.rx_fopts_length },
           rx_packet_type_t.USERRX_FOPTSPACKET)
        else (st, .NO_MORE_VALID_RX_PACKET)
      ({ r.1 with available_app_packet := true }, r.2)
  else
    if st.rx_fopts_length ≠ 0 then
      ({ st with
          nwk_payload := memcpyAt st.nwk_payload 0 st.rx_fopts st.rx_fopts_length,
          nwk_payload_size := st.rx_fopts_length },
       rx_packet_type_t.USERRX_FOPTSPACKET)
    else (st, .NO_MORE_VALID_RX_PACKET)

/-- The post-MIC bookkeeping and payload dispatch of
`lr1_stack_mac_rx_frame_decode` (lines 671-741). -/
def rx_post_mic_dispatch (cx : rx_crypto_t) (st : lr1_stack_mac_t) :
    lr1_stack_mac_t × rx_packet_type_t :=
  rx_payload_dispatch cx (rx_ack_handle st)

/-- Embedding of `lr1_stack_mac_rx_frame_decode` (lines 625-746).  The
structure mirrors the source: size and MHDR checks, the JoinAccept branch,
and for data downlinks the FHDR extraction, `fcnt_dwn_accept` — which
writes the reconstructed counter through its pointer into
`lr1_mac->fcnt_dwn` (line 657) — the MIC check over the already-updated
`fcnt_dwn` (lines 663-664), and the post-MIC bookkeeping and payload
dispatch. -/
def lr1_stack_mac_rx_frame_decode (cx : rx_crypto_t) (st0 : lr1_stack_mac_t) :
    lr1_stack_mac_t × rx_packet_type_t :=
  let status := OKLORAWAN + rx_payload_size_check st0
  let m := rx_mhdr_extract st0
  let st := m.1
  let status := status + m.2
  if st.rx_mtype = JOIN_ACCEPT then
    let dec := cx.join_decrypt (fun i => st.rx_payload (1 + i)) (st.rx_payload_size - 1)
    let st := { st with
      rx_payload := memcpyAt st.rx_payload 1 dec (st.rx_payload_size - 1) }
    let st := { st with rx_payload_size := st.rx_payload_size - MICSIZE }
    let mic_in := read_u32le st.rx_payload st.rx_payload_size
    let status := status + cx.check_join_mic st.rx_payload st.rx_payload_size mic_in
    if status = OKLORAWAN then (st, .JOIN_ACCEPT_PACKET)
    else (st, .NO_MORE_VALID_RX_PACKET)
  else
    let f := rx_fhdr_extract st st.dev_addr
    let st := f.1
    let fcnt_dwn_tmp := f.2.1
    let status := status + f.2.2
    let a :=
      if status = OKLORAWAN then
        match fcnt_dwn_accept fcnt_dwn_tmp st.fcnt_dwn with
        | some c => ({ st with fcnt_dwn := c }, OKLORAWAN)
        | none => (st, ERRORLORAWAN)
      else (st, status)
    let st := a.1
    let status := a.2
    let b :=
      if status = OKLORAWAN then
        let st := { st with rx_payload_size := st.rx_payload_size - MICSIZE }
        let mic_in := read_u32le st.rx_payload st.rx_payload_size
        (st, status + cx.check_mic st.rx_payload st.rx_payload_size st.fcnt_dwn mic_in)
      else (st, status)
    let st := b.1
    let status := b.2
    if status = OKLORAWAN then
      rx_post_mic_dispatch cx st
    else
      (st, .NO_MORE_VALID_RX_PACKET)

/-- `rx_ack_handle` never touches `fcnt_dwn`. -/
theorem rx_ack_handle_fcnt (st : lr1_stack_mac_t) :
    (rx_ack_handle st).fcnt_dwn = st.fcnt_dwn := by
  simp only [rx_ack_handle]
  split_ifs <;> simp

/-- `rx_payload_dispatch` never touches `fcnt_dwn`. -/
theorem rx_payload_dispatch_fcnt (cx : rx_crypto_t) (st : lr1_stack_mac_t) :
    (rx_payload_dispatch cx st).1.fcnt_dwn = st.fcnt_dwn := by
  simp only [rx_payload_dispatch]
  split_ifs <;> simp

/-- `rx_post_mic_dispatch` never touches `fcnt_dwn`. -/
theorem rx_post_mic_dispatch_fcnt (cx : rx_crypto_t) (st : lr1_stack_mac_t) :
    (rx_post_mic_dispatch cx st).1.fcnt_dwn = st.fcnt_dwn := by
  rw [rx_post_mic_dispatch, rx_payload_dispatch_fcnt, rx_ack_handle_fcnt]

/-- Crypto oracle whose data-frame MIC verification always fails. -/
def c2_crypto : rx_crypto_t := { check_mic := fun _ _ _ _ => ERRORLORAWAN }

/-- A well-formed unconfirmed data downlink for DevAddr 0x12:
MHDR 0x60, DevAddr 12 00 00 00, FCtrl 0x00, FCnt16 = 0x0006, MIC 00000000
(no FOpts, no FPort or FRMPayload — the empty-payload case). -/
def c2_frame : List Nat := [96, 18, 0, 0, 0, 0, 6, 0, 0, 0, 0, 0]

/-- Joined session with stored FCntDown = 5 that has just received
`c2_frame`: the received FCnt 6 passes the windowing check (6 > 5). -/
def c2_state : lr1_stack_mac_t :=
  { join_status := .JOINED,
    dev_addr := 18,
    fcnt_dwn := 5,
    rx_payload := fun i => c2_frame.getD i 0,
    rx_payload_size := 12 }

/-- C2, behaviour of the code at the failing input: the frame's FCnt 6
passes the windowing check (`fcnt_dwn_accept 6 5 = some 6`), the MIC check
then fails (the oracle returns `ERRORLORAWAN`), the frame is rejected — yet
the session's stored FCntDown has been overwritten with the reconstructed
counter 6: `fcnt_dwn_accept` writes through its pointer at line 657, before
the MIC verification at lines 663-664, and nothing restores the old value
on MIC failure. -/
theorem fcnt_commit_before_mic :
    fcnt_dwn_accept 6 c2_state.fcnt_dwn = some 6 ∧
    (lr1_stack_mac_rx_frame_decode c2_crypto c2_state).2 =
        .NO_MORE_VALID_RX_PACKET ∧
    (lr1_stack_mac_rx_frame_decode c2_crypto c2_state).1.fcnt_dwn = 6 ∧
    c2_state.fcnt_dwn = 5 := by
  refine ⟨rfl, rfl, rfl, rfl⟩

/-- General form of the early commit: for any data downlink whose size,
MHDR and FHDR checks pass and whose 16-bit FCnt passes the windowing check
with reconstructed counter `c`, `lr1_stack_mac_rx_frame_decode` stores `c`
into `fcnt_dwn` no matter what the MIC verification answers. -/
theorem rx_decode_commits_on_window_pass (cx : rx_crypto_t)
    (st0 : lr1_stack_mac_t) (c : Nat)
    (hsize : rx_payload_size_check st0 = OKLORAWAN)
    (hmhdr : (rx_mhdr_extract st0).2 = OKLORAWAN)
    (hnotjoin : ¬ (rx_mhdr_extract st0).1.rx_mtype = JOIN_ACCEPT)
    (hfhdr : (rx_fhdr_extract (rx_mhdr_extract st0).1
        (rx_mhdr_extract st0).1.dev_addr).2.2 = OKLORAWAN)
    (hacc : fcnt_dwn_accept
        (rx_fhdr_extract (rx_mhdr_extract st0).1 (rx_mhdr_extract st0).1.dev_addr).2.1
        (rx_fhdr_extract (rx_mhdr_extract st0).1
          (rx_mhdr_extract st0).1.dev_addr).1.fcnt_dwn = some c) :
    (lr1_stack_mac_rx_frame_decode cx st0).1.fcnt_dwn = c := by
  simp only [lr1_stack_mac_rx_frame_decode, hsize, hmhdr, hfhdr, hacc,
    if_neg hnotjoin]
  norm_num [OKLORAWAN]
  split_ifs <;> simp [rx_post_mic_dispatch_fcnt]

/-! ## C10 — MAC command stream parse

CID values and command/answer sizes per LoRaWAN 1.0.x (they live in
`lr1mac_defs.h`, which is not in the source slice; the spec's §4.5 command
table fixes the command set and the 1- or 2-byte answers). -/

/-- Modelled from the spec: LoRaWAN 1.0.x CIDs 0x02..0x0A for
LinkCheck, LinkADR, DutyCycle, RXParamSetup, DevStatus, NewChannel,
RXTimingSetup, TXParamSetup, DLChannel. -/
def LINK_CHECK_ANS : Nat := 2

/-- See `LINK_CHECK_ANS`. -/
def LINK_ADR_REQ : Nat := 3

/-- See `LINK_CHECK_ANS`. -/
def LINK_ADR_ANS : Nat := 3

/-- See `LINK_CHECK_ANS`. -/
def DUTY_CYCLE_REQ : Nat := 4

/-- See `LINK_CHECK_ANS`. -/
def DUTY_CYCLE_ANS : Nat := 4

/-- See `LINK_CHECK_ANS`. -/
def RXPARRAM_SETUP_REQ : Nat := 5

/-- See `LINK_CHECK_ANS`. -/
def RXPARRAM_SETUP_ANS : Nat := 5

/-- See `LINK_CHECK_ANS`. -/
def DEV_STATUS_REQ : Nat := 6

/-- See `LINK_CHECK_ANS`. -/
def DEV_STATUS_ANS : Nat := 6

/-- See `LINK_CHECK_ANS`. -/
def NEW_CHANNEL_REQ : Nat := 7

/-- See `LINK_CHECK_ANS`. -/
def NEW_CHANNEL_ANS : Nat := 7

/-- See `LINK_CHECK_ANS`. -/
def RXTIMING_SETUP_REQ : Nat := 8

/-- See `LINK_CHECK_ANS`. -/
def RXTIMING_SETUP_ANS : Nat := 8

/-- See `LINK_CHECK_ANS`. -/
def TXPARAM_SETUP_REQ : Nat := 9

/-- See `LINK_CHECK_ANS`. -/
def TXPARAM_SETUP_ANS : Nat := 9

/-- See `LINK_CHECK_ANS`. -/
def DL_CHANNEL_REQ : Nat := 10

/-- See `LINK_CHECK_ANS`. -/
def DL_CHANNEL_ANS : Nat := 10

/-- Modelled from the spec: byte sizes of the LoRaWAN 1.0.x commands and
answers (CID byte included). -/
def LINK_CHECK_ANS_SIZE : Nat := 3

/-- See `LINK_CHECK_ANS_SIZE`. -/
def LINK_ADR_REQ_SIZE : Nat := 5

/-- See `LINK_CHECK_ANS_SIZE`. -/
def LINK_ADR_ANS_SIZE : Nat := 2

/-- See `LINK_CHECK_ANS_SIZE`. -/
def DUTY_CYCLE_REQ_SIZE : Nat := 2

/-- See `LINK_CHECK_ANS_SIZE`. -/
def DUTY_CYCLE_ANS_SIZE : Nat := 1

/-- See `LINK_CHECK_ANS_SIZE`. -/
def RXPARRAM_SETUP_REQ_SIZE : Nat := 5

/-- See `LINK_CHECK_ANS_SIZE`. -/
def RXPARRAM_SETUP_ANS_SIZE : Nat := 2

/-- See `LINK_CHECK_ANS_SIZE`. -/
def DEV_STATUS_REQ_SIZE : Nat := 1

/-- See `LINK_CHECK_ANS_SIZE`. -/
def DEV_STATUS_ANS_SIZE : Nat := 3

/-- See `LINK_CHECK_ANS_SIZE`. -/
def NEW_CHANNEL_REQ_SIZE : Nat := 6

/-- See `LINK_CHECK_ANS_SIZE`. -/
def NEW_CHANNEL_ANS_SIZE : Nat := 2

/-- See `LINK_CHECK_ANS_SIZE`. -/
def RXTIMING_SETUP_REQ_SIZE : Nat := 2

/-- See `LINK_CHECK_ANS_SIZE`. -/
def RXTIMING_SETUP_ANS_SIZE : Nat := 1

/-- See `LINK_CHECK_ANS_SIZE`. -/
def TXPARAM_SETUP_REQ_SIZE : Nat := 2

/-- See `LINK_CHECK_ANS_SIZE`. -/
def TXPARAM_SETUP_ANS_SIZE : Nat := 1

/-- See `LINK_CHECK_ANS_SIZE`. -/
def DL_CHANNEL_REQ_SIZE : Nat := 5

/-- See `LINK_CHECK_ANS_SIZE`. -/
def DL_CHANNEL_ANS_SIZE : Nat := 2

/-- Embedding of `link_check_parser` (lines 1294-1299): record
Margin/GwCnt in the trace and step over the command. -/
def link_check_parse (st : lr1_stack_mac_t) : lr1_stack_mac_t :=
  { st with nwk_payload_index := st.nwk_payload_index + LINK_CHECK_ANS_SIZE }

/-- Count of back-to-back LinkADRReq blocks, the inner `while` of
`lr1_stack_mac_cmd_parse` (lines 932-941). -/
def link_adr_req_count (payload : Nat → Nat) (idx size nb : Nat) : Nat :=
  if h : rd payload (idx + nb * LINK_ADR_REQ_SIZE) = LINK_ADR_REQ ∧
         idx + nb * LINK_ADR_REQ_SIZE < size then
    link_adr_req_count payload idx size (nb + 1)
  else nb
  termination_by size - (idx + nb * LINK_ADR_REQ_SIZE)
  decreasing_by
    simp only [LINK_ADR_REQ_SIZE] at *
    omega

theorem link_adr_req_count_ge (payload : Nat → Nat) (idx size nb : Nat) :
    nb ≤ link_adr_req_count payload idx size nb := by
  rw [link_adr_req_count]
  split_ifs with h
  · exact Nat.le_trans (Nat.le_succ nb) (link_adr_req_count_ge payload idx size (nb + 1))
  · exact Nat.le_refl nb
  termination_by size - (idx + nb * LINK_ADR_REQ_SIZE)
  decreasing_by
    simp only [LINK_ADR_REQ_SIZE] at *
    omega

theorem link_adr_req_count_pos (payload : Nat → Nat) (idx size : Nat)
    (h1 : rd payload idx = LINK_ADR_REQ) (h2 : idx < size) :
    1 ≤ link_adr_req_count payload idx size 0 := by
  rw [link_adr_req_count]
  rw [dif_pos (by simpa using And.intro h1 h2)]
  exact link_adr_req_count_ge payload idx size 1

/-- Duplicated LinkADRAns writes of lines 1407-1411: `n` copies of
`(LINK_ADR_ANS, status_ans)` at `base`, `base+2`, …. -/
def write_link_adr_ans (buf : Nat → Nat) (base status_ans : Nat) : Nat → (Nat → Nat)
  | 0 => buf
  | n + 1 =>
      bufSet
        (bufSet (write_link_adr_ans buf base status_ans n)
          (base + n * LINK_ADR_ANS_SIZE) LINK_ADR_ANS)
        (base + n * LINK_ADR_ANS_SIZE + 1) status_ans

/-- Per-block fold of lines 1344-1358: build the channel mask block by
block through REAL; the loop variable `statusChannel` keeps the **last**
block's result, and `status_ans` loses bit 0 on any `ERROR_CHANNEL_CNTL`. -/
def link_adr_mask_fold (o : real_oracle_t) (payload : Nat → Nat) (idx : Nat) :
    Nat → status_channel_t × Nat
  | 0 => (.OKCHANNEL, 7)
  | i + 1 =>
      let prev := link_adr_mask_fold o payload idx i
      let channel_mask_temp := rd payload (idx + i * LINK_ADR_REQ_SIZE + 2) +
          rd payload (idx + i * LINK_ADR_REQ_SIZE + 3) * 256
      let ChMAstCntlTemp := rd payload (idx + i * LINK_ADR_REQ_SIZE + 4) % 128 / 16
      let sc := o.channel_mask_build ChMAstCntlTemp channel_mask_temp
      (sc, if sc = .ERROR_CHANNEL_CNTL then prev.2 &&& 6 else prev.2)

/-- Embedding of `link_adr_parser` (lines 1325-1414). -/
def link_adr_parse (o : real_oracle_t) (st : lr1_stack_mac_t)
    (nb_link_adr_req : Nat) : lr1_stack_mac_t :=
  let idx := st.nwk_payload_index
  let p := st.nwk_payload
  let folded := link_adr_mask_fold o p idx nb_link_adr_req
  let status_ans :=
    if folded.1 = .ERROR_CHANNEL_MASK then folded.2 &&& 6 else folded.2
  let dr_tmp := rd p (idx + (nb_link_adr_req - 1) * LINK_ADR_REQ_SIZE + 1) / 16
  let status_ans := if o.is_acceptable_dr dr_tmp then status_ans else status_ans &&& 5
  let tx_power_tmp := rd p (idx + (nb_link_adr_req - 1) * LINK_ADR_REQ_SIZE + 1) % 16
  let status_ans := if o.is_valid_tx_power tx_power_tmp then status_ans else status_ans &&& 3
  let nb_trans_tmp := rd p (idx + (nb_link_adr_req - 1) * LINK_ADR_REQ_SIZE + 4) % 16
  let st :=
    if status_ans = 7 then
      { st with tx_power := o.power_set tx_power_tmp,
                nb_trans := nb_trans_tmp,
                tx_data_rate_adr := dr_tmp }
    else st
  { st with
    tx_fopts_data := write_link_adr_ans st.tx_fopts_data st.tx_fopts_length
      status_ans nb_link_adr_req,
    nwk_payload_index := st.nwk_payload_index + nb_link_adr_req * LINK_ADR_REQ_SIZE,
    tx_fopts_length := st.tx_fopts_length + nb_link_adr_req * LINK_ADR_ANS_SIZE }

/-- Embedding of `duty_cycle_parser` (lines 1489-1498). -/
def duty_cycle_parse (st : lr1_stack_mac_t) : lr1_stack_mac_t :=
  let st := { st with
    max_duty_cycle_index := rd st.nwk_payload (st.nwk_payload_index + 1) % 16 }
  { st with
    tx_fopts_data := bufSet st.tx_fopts_data st.tx_fopts_length DUTY_CYCLE_ANS,
    tx_fopts_length := st.tx_fopts_length + DUTY_CYCLE_ANS_SIZE,
    nwk_payload_index := st.nwk_payload_index + DUTY_CYCLE_REQ_SIZE }

/-- Embedding of `rx_param_setup_parser` (lines 1421-1482). -/
def rx_param_setup_parse (o : real_oracle_t) (st : lr1_stack_mac_t) :
    lr1_stack_mac_t :=
  let idx := st.nwk_payload_index
  let p := st.nwk_payload
  let rx1_dr_offset_temp := rd p (idx + 1) % 128 / 16
  let status_ans := if o.is_valid_rx1_dr_offset rx1_dr_offset_temp then 7 else 7 &&& 6
  let rx2_dr_temp := rd p (idx + 1) % 16
  let status_ans := if o.is_valid_dr rx2_dr_temp then status_ans else status_ans &&& 5
  let rx2_frequency_temp :=
    o.decode_freq_from_buf (rd p (idx + 2)) (rd p (idx + 3)) (rd p (idx + 4))
  let status_ans :=
    if o.is_valid_rx_frequency rx2_frequency_temp then status_ans else status_ans &&& 3
  let st :=
    if status_ans = 7 then
      { st with rx1_dr_offset := rx1_dr_offset_temp,
                rx2_data_rate := rx2_dr_temp,
                rx2_frequency := rx2_frequency_temp }
    else st
  { st with
    tx_fopts_datasticky :=
      bufSet (bufSet st.tx_fopts_datasticky st.tx_fopts_lengthsticky RXPARRAM_SETUP_ANS)
        (st.tx_fopts_lengthsticky + 1) status_ans,
    tx_fopts_lengthsticky := st.tx_fopts_lengthsticky + RXPARRAM_SETUP_ANS_SIZE,
    nwk_payload_index := st.nwk_payload_index + RXPARRAM_SETUP_REQ_SIZE }

/-- Embedding of `dev_status_parser` (lines 1504-1515). -/
def dev_status_parse (o : real_oracle_t) (st : lr1_stack_mac_t) : lr1_stack_mac_t :=
  { st with
    tx_fopts_data :=
      bufSet
        (bufSet (bufSet st.tx_fopts_data st.tx_fopts_length DEV_STATUS_ANS)
          (st.tx_fopts_length + 1) o.battery_level)
        (st.tx_fopts_length + 2) (o.snr_pkt_in_db &&& 63),
    tx_fopts_length := st.tx_fopts_length + DEV_STATUS_ANS_SIZE,
    nwk_payload_index := st.nwk_payload_index + DEV_STATUS_REQ_SIZE }

/-- Embedding of `new_channel_parser` (lines 1520-1594). -/
def new_channel_parse (o : real_oracle_t) (st : lr1_stack_mac_t) : lr1_stack_mac_t :=
  let idx := st.nwk_payload_index
  let p := st.nwk_payload
  let channel_index_temp := rd p (idx + 1)
  let status_ans := if o.is_valid_channel_index channel_index_temp then 3 else 3 &&& 0
  let frequency_temp :=
    o.decode_freq_from_buf (rd p (idx + 2)) (rd p (idx + 3)) (rd p (idx + 4))
  let status_ans :=
    if o.is_valid_tx_frequency frequency_temp then status_ans else status_ans &&& 2
  let dr_range_min_temp := rd p (idx + 5) % 16
  let status_ans :=
    if o.is_valid_dr dr_range_min_temp then status_ans else status_ans &&& 1
  let dr_range_max_temp := rd p (idx + 5) % 256 / 16
  let status_ans :=
    if o.is_valid_dr dr_range_max_temp then status_ans else status_ans &&& 1
  let status_ans :=
    if dr_range_max_temp < dr_range_min_temp then status_ans &&& 1 else status_ans
  { st with
    tx_fopts_data :=
      bufSet (bufSet st.tx_fopts_data st.tx_fopts_length NEW_CHANNEL_ANS)
        (st.tx_fopts_length + 1) status_ans,
    tx_fopts_length := st.tx_fopts_length + NEW_CHANNEL_ANS_SIZE,
    nwk_payload_index := st.nwk_payload_index + NEW_CHANNEL_REQ_SIZE }

/-- Embedding of `rx_timing_setup_parser` (lines 1600-1613). -/
def rx_timing_setup_parse (st : lr1_stack_mac_t) : lr1_stack_mac_t :=
  let st := { st with rx1_delay_s := rd st.nwk_payload (st.nwk_payload_index + 1) % 16 }
  let st := if st.rx1_delay_s = 0 then { st with rx1_delay_s := 1 } else st
  { st with
    tx_fopts_datasticky :=
      bufSet st.tx_fopts_datasticky st.tx_fopts_lengthsticky RXTIMING_SETUP_ANS,
    tx_fopts_lengthsticky := st.tx_fopts_lengthsticky + RXTIMING_SETUP_ANS_SIZE,
    nwk_payload_index := st.nwk_payload_index + RXTIMING_SETUP_REQ_SIZE }

/-- Embedding of `tx_param_setup_parser` (lines 1620-1635). -/
def tx_param_setup_parse (o : real_oracle_t) (st : lr1_stack_mac_t) :
    lr1_stack_mac_t :=
  let b := rd st.nwk_payload (st.nwk_payload_index + 1)
  let st := { st with
    max_eirp_dbm := o.max_eirp_dbm_from_idx (b % 16),
    uplink_dwell_time := b / 16 % 2,
    downlink_dwell_time := b / 32 % 2 }
  { st with
    tx_fopts_datasticky :=
      bufSet st.tx_fopts_datasticky st.tx_fopts_lengthsticky TXPARAM_SETUP_ANS,
    tx_fopts_lengthsticky := st.tx_fopts_lengthsticky + TXPARAM_SETUP_ANS_SIZE,
    nwk_payload_index := st.nwk_payload_index + TXPARAM_SETUP_REQ_SIZE }

/-- Embedding of `dl_channel_parser` (lines 1642-1680). -/
def dl_channel_parse (o : real_oracle_t) (st : lr1_stack_mac_t) : lr1_stack_mac_t :=
  let idx := st.nwk_payload_index
  let p := st.nwk_payload
  let channel_index_temp := rd p (idx + 1)
  let status_ans :=
    if o.tx_frequency_channel_get channel_index_temp = 0 then 3 &&& 1 else 3
  let frequency_temp :=
    o.decode_freq_from_buf (rd p (idx + 2)) (rd p (idx + 3)) (rd p (idx + 4))
  let status_ans :=
    if o.is_valid_rx_frequency frequency_temp then status_ans else status_ans &&& 2
  { st with
    tx_fopts_datasticky :=
      bufSet (bufSet st.tx_fopts_datasticky st.tx_fopts_lengthsticky DL_CHANNEL_ANS)
        (st.tx_fopts_lengthsticky + 1) status_ans,
    tx_fopts_lengthsticky := st.tx_fopts_lengthsticky + DL_CHANNEL_ANS_SIZE,
    nwk_payload_index := st.nwk_payload_index + DL_CHANNEL_REQ_SIZE }

theorem link_check_parse_idx (st : lr1_stack_mac_t) :
    (link_check_parse st).nwk_payload_index =
      st.nwk_payload_index + LINK_CHECK_ANS_SIZE ∧
    (link_check_parse st).nwk_payload_size = st.nwk_payload_size :=
  ⟨rfl, rfl⟩

theorem link_adr_parse_idx (o : real_oracle_t) (st : lr1_stack_mac_t) (n : Nat) :
    (link_adr_parse o st n).nwk_payload_index =
      st.nwk_payload_index + n * LINK_ADR_REQ_SIZE ∧
    (link_adr_parse o st n).nwk_payload_size = st.nwk_payload_size := by
  simp only [link_adr_parse]
  split_ifs <;> simp

theorem duty_cycle_parse_idx (st : lr1_stack_mac_t) :
    (duty_cycle_parse st).nwk_payload_index =
      st.nwk_payload_index + DUTY_CYCLE_REQ_SIZE ∧
    (duty_cycle_parse st).nwk_payload_size = st.nwk_payload_size :=
  ⟨rfl, rfl⟩

theorem rx_param_setup_parse_idx (o : real_oracle_t) (st : lr1_stack_mac_t) :
    (rx_param_setup_parse o st).nwk_payload_index =
      st.nwk_payload_index + RXPARRAM_SETUP_REQ_SIZE ∧
    (rx_param_setup_parse o st).nwk_payload_size = st.nwk_payload_size := by
  simp only [rx_param_setup_parse]
  split_ifs <;> simp

theorem dev_status_parse_idx (o : real_oracle_t) (st : lr1_stack_mac_t) :
    (dev_status_parse o st).nwk_payload_index =
      st.nwk_payload_index + DEV_STATUS_REQ_SIZE ∧
    (dev_status_parse o st).nwk_payload_size = st.nwk_payload_size :=
  ⟨rfl, rfl⟩

theorem new_channel_parse_idx (o : real_oracle_t) (st : lr1_stack_mac_t) :
    (new_channel_parse o st).nwk_payload_index =
      st.nwk_payload_index + NEW_CHANNEL_REQ_SIZE ∧
    (new_channel_parse o st).nwk_payload_size = st.nwk_payload_size := by
  simp only [new_channel_parse]
  exact ⟨trivial, trivial⟩

theorem rx_timing_setup_parse_idx (st : lr1_stack_mac_t) :
    (rx_timing_setup_parse st).nwk_payload_index =
      st.nwk_payload_index + RXTIMING_SETUP_REQ_SIZE ∧
    (rx_timing_setup_parse st).nwk_payload_size = st.nwk_payload_size := by
  simp only [rx_timing_setup_parse]
  split_ifs <;> simp

theorem tx_param_setup_parse_idx (o : real_oracle_t) (st : lr1_stack_mac_t) :
    (tx_param_setup_parse o st).nwk_payload_index =
      st.nwk_payload_index + TXPARAM_SETUP_REQ_SIZE ∧
    (tx_param_setup_parse o st).nwk_payload_size = st.nwk_payload_size :=
  ⟨rfl, rfl⟩

theorem dl_channel_parse_idx (o : real_oracle_t) (st : lr1_stack_mac_t) :
    (dl_channel_parse o st).nwk_payload_index =
      st.nwk_payload_index + DL_CHANNEL_REQ_SIZE ∧
    (dl_channel_parse o st).nwk_payload_size = st.nwk_payload_size := by
  simp only [dl_channel_parse]
  exact ⟨trivial, trivial⟩

/-- The `while( nwk_payload_size > nwk_payload_index )` dispatch loop of
`lr1_stack_mac_cmd_parse` (lines 914-985): the `tx_fopts_length > 200`
guard returns `ERRORLORAWAN`; a recognised CID runs its command handler;
any other byte takes the `default` branch, which zeroes
`nwk_payload_size` so the next loop test fails and the accumulated
`OKLORAWAN` status is returned. -/
def lr1_stack_mac_cmd_parse_loop (o : real_oracle_t) (st : lr1_stack_mac_t) :
    lr1_stack_mac_t × Int :=
  if hloop : st.nwk_payload_size > st.nwk_payload_index then
    if st.tx_fopts_length > 200 then (st, ERRORLORAWAN)
    else
      let cmd_identifier := rd st.nwk_payload st.nwk_payload_index
      if h1 : cmd_identifier = LINK_CHECK_ANS then
        lr1_stack_mac_cmd_parse_loop o (link_check_parse st)
      else if h2 : cmd_identifier = LINK_ADR_REQ then
        have hadr : rd st.nwk_payload st.nwk_payload_index = LINK_ADR_REQ := h2
        let nb_link_adr_req := link_adr_req_count st.nwk_payload
          st.nwk_payload_index st.nwk_payload_size 0
        lr1_stack_mac_cmd_parse_loop o (link_adr_parse o st nb_link_adr_req)
      else if h3 : cmd_identifier = DUTY_CYCLE_REQ then
        lr1_stack_mac_cmd_parse_loop o (duty_cycle_parse st)
      else if h4 : cmd_identifier = RXPARRAM_SETUP_REQ then
        lr1_stack_mac_cmd_parse_loop o (rx_param_setup_parse o st)
      else if h5 : cmd_identifier = DEV_STATUS_REQ then
        lr1_stack_mac_cmd_parse_loop o (dev_status_parse o st)
      else if h6 : cmd_identifier = NEW_CHANNEL_REQ then
        lr1_stack_mac_cmd_parse_loop o (new_channel_parse o st)
      else if h7 : cmd_identifier = RXTIMING_SETUP_REQ then
        lr1_stack_mac_cmd_parse_loop o (rx_timing_setup_parse st)
      else if h8 : cmd_identifier = TXPARAM_SETUP_REQ then
        lr1_stack_mac_cmd_parse_loop o (tx_param_setup_parse o st)
      else if h9 : cmd_identifier = DL_CHANNEL_REQ then
        lr1_stack_mac_cmd_parse_loop o (dl_channel_parse o st)
      else
        lr1_stack_mac_cmd_parse_loop o { st with nwk_payload_size := 0 }
  else (st, OKLORAWAN)
  termination_by st.nwk_payload_size - st.nwk_payload_index
  decreasing_by
  · have h := link_check_parse_idx st
    simp only [h.1, h.2, LINK_CHECK_ANS_SIZE]
    omega
  · have h := link_adr_parse_idx o st (link_adr_req_count st.nwk_payload
      st.nwk_payload_index st.nwk_payload_size 0)
    have hpos := link_adr_req_count_pos st.nwk_payload st.nwk_payload_index
      st.nwk_payload_size hadr hloop
    simp only [h.1, h.2, LINK_ADR_REQ_SIZE] at *
    omega
  · have h := duty_cycle_parse_idx st
    simp only [h.1, h.2, DUTY_CYCLE_REQ_SIZE]
    omega
  · have h := rx_param_setup_parse_idx o st
    simp only [h.1, h.2, RXPARRAM_SETUP_REQ_SIZE]
    omega
  · have h := dev_status_parse_idx o st
    simp only [h.1, h.2, DEV_STATUS_REQ_SIZE]
    omega
  · have h := new_channel_parse_idx o st
    simp only [h.1, h.2, NEW_CHANNEL_REQ_SIZE]
    omega
  · have h := rx_timing_setup_parse_idx st
    simp only [h.1, h.2, RXTIMING_SETUP_REQ_SIZE]
    omega
  · have h := tx_param_setup_parse_idx o st
    simp only [h.1, h.2, TXPARAM_SETUP_REQ_SIZE]
    omega
  · have h := dl_channel_parse_idx o st
    simp only [h.1, h.2, DL_CHANNEL_REQ_SIZE]
    omega
  · show 0 - st.nwk_payload_index < st.nwk_payload_size - st.nwk_payload_index
    omega

/-- Embedding of `lr1_stack_mac_cmd_parse` (lines 904-987): reset the
answer cursors (lines 909-912), then run the dispatch loop. -/
def lr1_stack_mac_cmd_parse (o : real_oracle_t) (st : lr1_stack_mac_t) :
    lr1_stack_mac_t × Int :=
  lr1_stack_mac_cmd_parse_loop o
    { st with nwk_payload_index := 0, nwk_ans_size := 0,
              tx_fopts_length := 0, tx_fopts_lengthsticky := 0 }

/-- The nine CIDs `lr1_stack_mac_cmd_parse` recognises. -/
def known_cid (c : Nat) : Prop :=
  c = LINK_CHECK_ANS ∨ c = LINK_ADR_REQ ∨ c = DUTY_CYCLE_REQ ∨
  c = RXPARRAM_SETUP_REQ ∨ c = DEV_STATUS_REQ ∨ c = NEW_CHANNEL_REQ ∨
  c = RXTIMING_SETUP_REQ ∨ c = TXPARAM_SETUP_REQ ∨ c = DL_CHANNEL_REQ

instance (c : Nat) : Decidable (known_cid c) := by
  unfold known_cid
  infer_instance

/-- C10: whenever the dispatch loop of `lr1_stack_mac_cmd_parse` meets a
byte at a command boundary that is none of the nine recognised CIDs, it
stops processing there: the remaining network payload size is set to 0
(discarding that byte and everything after it), nothing else in the state
changes, and the returned status is `OKLORAWAN`, not an error. -/
theorem cmd_parse_unknown_cid (o : real_oracle_t) (st : lr1_stack_mac_t)
    (hin : st.nwk_payload_index < st.nwk_payload_size)
    (hguard : ¬ st.tx_fopts_length > 200)
    (hcid : ¬ known_cid (rd st.nwk_payload st.nwk_payload_index)) :
    lr1_stack_mac_cmd_parse_loop o st =
      ({ st with nwk_payload_size := 0 }, OKLORAWAN) := by
  simp only [known_cid, not_or] at hcid
  obtain ⟨h1, h2, h3, h4, h5, h6, h7, h8, h9⟩ := hcid
  rw [lr1_stack_mac_cmd_parse_loop]
  simp only [dif_pos hin, if_neg hguard, dif_neg h1, dif_neg h2, dif_neg h3,
    dif_neg h4, dif_neg h5, dif_neg h6, dif_neg h7, dif_neg h8, dif_neg h9]
  rw [lr1_stack_mac_cmd_parse_loop]
  simp

/-- Stream whose first byte 0x80 is not a recognised CID. -/
def c10_state : lr1_stack_mac_t :=
  { nwk_payload := fun i => [128].getD i 0, nwk_payload_size := 1 }

/-- Witness for `cmd_parse_unknown_cid` on a one-byte stream `[0x80]`. -/
theorem cmd_parse_unknown_cid_witness :
    c10_state.nwk_payload_index < c10_state.nwk_payload_size ∧
    ¬ c10_state.tx_fopts_length > 200 ∧
    ¬ known_cid (rd c10_state.nwk_payload c10_state.nwk_payload_index) ∧
    lr1_stack_mac_cmd_parse_loop o_default c10_state =
      ({ c10_state with nwk_payload_size := 0 }, OKLORAWAN) :=
  ⟨by decide, by decide, by decide,
   cmd_parse_unknown_cid o_default c10_state (by decide) (by decide) (by decide)⟩

/-! ## C5 — `compute_rx_window_parameters` -/

/-- The `switch(bw)` of lines 1160-1180: bandwidth in kHz, defaulting to
125. -/
def bw_temp_of (bw : lr1mac_bandwidth_t) : Nat :=
  match bw with
  | .BW125 => 125
  | .BW250 => 250
  | .BW500 => 500
  | .BW800 => 800
  | .BW1600 => 1600
  | _ => 125

/-- Embedding of `compute_rx_window_parameters` (lines 1142-1197),
returning `(rx_window_symb, rx_offset_ms, rx_timeout_ms)`.  The C `double`
arithmetic on the symbol duration is idealised as exact rational
arithmetic; the window-width computation is pure integer arithmetic in the
source (`uint32` shifts, `uint16` cast) and is embedded exactly. -/
def compute_rx_window_parameters (sf : Nat) (bw : lr1mac_bandwidth_t)
    (clock_accuracy rx_delay_ms board_delay_ms : Nat)
    (rx_modulation_type : modulation_type_t) : Nat × Int × Nat :=
  let rx_error_ms := clock_accuracy * rx_delay_ms / 1000
  let min_rx_symbols : Nat := 6
  let bw_temp := bw_temp_of bw
  let tsymbol : ℚ :=
    match rx_modulation_type with
    | .LORA => ((2 ^ sf : Nat) : ℚ) / (bw_temp : ℚ)
    | .FSK => (8 : ℚ) / (sf : ℚ)
  let rx_window_symb : Nat :=
    match rx_modulation_type with
    | .LORA =>
        (max ((2 * min_rx_symbols - 8) + ((2 * rx_error_ms * bw_temp) >>> sf) + 1)
          min_rx_symbols) % 65536
    | .FSK =>
        (max ((2 * min_rx_symbols - 8) + ((2 * rx_error_ms * sf) >>> 3) + 1)
          min_rx_symbols) % 65536
  let rx_offset_ms : Int :=
    Int.ceil ((4 : ℚ) * tsymbol - (rx_window_symb : ℚ) * tsymbol / 2 -
      (board_delay_ms : ℚ)) * (-1)
  let rx_timeout_ms : Nat := (Int.ceil ((rx_window_symb : ℚ) * tsymbol)).toNat
  (rx_window_symb, rx_offset_ms, rx_timeout_ms)

/-- Claim C5's stated window-width formula, written from the spec's words
for comparison: `N = max(6, 2·6 − 8 + ⌈2·err_ms·BW_kHz / 2^SF⌉ + 1)` with a
ceiling division. -/
def c5_claimed_symb (sf bw_khz err_ms : Nat) : Nat :=
  max 6 (Int.toNat (2 * 6 - 8 +
    Int.ceil (((2 * err_ms * bw_khz : Nat) : ℚ) / ((2 ^ sf : Nat) : ℚ)) + 1))

/-- Claim C5's stated early-start offset, written from the spec's words for
comparison: `offset_ms = ⌈(N/2)·Tsym − 4·Tsym + board_delay_ms⌉`. -/
def c5_claimed_offset (n : Nat) (tsym : ℚ) (board_delay_ms : Nat) : Int :=
  Int.ceil ((n : ℚ) / 2 * tsym - 4 * tsym + (board_delay_ms : ℚ))

/-- C5 counterexample: LoRa, SF7/BW125, 3% clock accuracy
(`clock_accuracy` = 30), RX delay 5000 ms, zero board delay.  `err_ms` =
150, and `2·err·BW / 2^SF = 37500/128 = 292.97…`: the code's
`(37500) >> 7` floors to 292 giving a window of 297 symbols, while the
claim's ceiling gives 293 and a window of 298 symbols.  The code also makes
the offset `-⌈…⌉ = ⌊(N/2)·Tsym − 4·Tsym + board⌋`, a floor, not the claim's
ceiling: here `297/2·1.024 − 4·1.024 = 147.968`, so the code's offset is
147 while the claim's formula gives 148. -/
theorem compute_rx_window_counterexample :
    (compute_rx_window_parameters 7 .BW125 30 5000 0 .LORA).1 = 297 ∧
    c5_claimed_symb 7 125 (30 * 5000 / 1000) = 298 ∧
    (compute_rx_window_parameters 7 .BW125 30 5000 0 .LORA).2.1 = 147 ∧
    c5_claimed_offset 297 (((2 ^ 7 : Nat) : ℚ) / ((125 : Nat) : ℚ)) 0 = 148 := by
  refine ⟨rfl, ?_, ?_, ?_⟩
  · unfold c5_claimed_symb
    have h : Int.ceil (((2 * (30 * 5000 / 1000) * 125 : Nat) : ℚ) /
        ((2 ^ 7 : Nat) : ℚ)) = 293 := by
      rw [Int.ceil_eq_iff]
      constructor <;> norm_num
    rw [h]
    decide
  · show Int.ceil ((4 : ℚ) * (((2 ^ 7 : Nat) : ℚ) / ((125 : Nat) : ℚ)) -
        ((297 : Nat) : ℚ) * (((2 ^ 7 : Nat) : ℚ) / ((125 : Nat) : ℚ)) / 2 -
        ((0 : Nat) : ℚ)) * (-1) = 147
    have h : Int.ceil ((4 : ℚ) * (((2 ^ 7 : Nat) : ℚ) / ((125 : Nat) : ℚ)) -
        ((297 : Nat) : ℚ) * (((2 ^ 7 : Nat) : ℚ) / ((125 : Nat) : ℚ)) / 2 -
        ((0 : Nat) : ℚ)) = -147 := by
      rw [Int.ceil_eq_iff]
      constructor <;> norm_num
    rw [h]
    decide
  · unfold c5_claimed_offset
    rw [Int.ceil_eq_iff]
    constructor <;> norm_num

theorem ceil_mul_neg_one_eq_floor_neg (a : ℚ) :
    Int.ceil a * (-1) = Int.floor (-a) := by
  rw [mul_neg_one, Int.floor_neg]

/-- C5 (amended): for every SF, BW, clock accuracy and RX delay,
`compute_rx_window_parameters` sets the window width in symbols to
`N = max(6, 2·6 − 8 + ⌊2·err_ms·BW_kHz / 2^SF⌋ + 1)` — a **floor** (the C
right-shift), not a ceiling — with `err_ms = clock_accuracy·delay_ms/1000`,
GFSK using `⌊2·err_ms·bitrate/8⌋` analogously, and sets the early-start
offset to `offset_ms = ⌊(N/2)·Tsym − 4·Tsym + board_delay_ms⌋` — again a
floor, the code's `-⌈4·Tsym − (N/2)·Tsym − board⌉` — with
`Tsym = 2^SF/BW_kHz` ms (GFSK: `8/bitrate`), under the idealisation of the
C `double` arithmetic as exact rational arithmetic and provided the symbol
count fits the `uint16` cast. -/
theorem compute_rx_window_parameters_spec :
    (∀ (sf : Nat) (bw : lr1mac_bandwidth_t)
        (clock_accuracy rx_delay_ms board_delay_ms : Nat),
        2 * 6 - 8 + 2 * (clock_accuracy * rx_delay_ms / 1000) * bw_temp_of bw / 2 ^ sf
            + 1 < 65536 →
        (compute_rx_window_parameters sf bw clock_accuracy rx_delay_ms
            board_delay_ms .LORA).1 =
          max 6 (2 * 6 - 8 +
            2 * (clock_accuracy * rx_delay_ms / 1000) * bw_temp_of bw / 2 ^ sf + 1) ∧
        (compute_rx_window_parameters sf bw clock_accuracy rx_delay_ms
            board_delay_ms .LORA).2.1 =
          Int.floor
            (((compute_rx_window_parameters sf bw clock_accuracy rx_delay_ms
                board_delay_ms .LORA).1 : ℚ) / 2 *
              (((2 ^ sf : Nat) : ℚ) / ((bw_temp_of bw : Nat) : ℚ)) -
             4 * (((2 ^ sf : Nat) : ℚ) / ((bw_temp_of bw : Nat) : ℚ)) +
             (board_delay_ms : ℚ))) ∧
    (∀ (sf : Nat) (bw : lr1mac_bandwidth_t)
        (clock_accuracy rx_delay_ms board_delay_ms : Nat),
        2 * 6 - 8 + 2 * (clock_accuracy * rx_delay_ms / 1000) * sf / 8 + 1 < 65536 →
        (compute_rx_window_parameters sf bw clock_accuracy rx_delay_ms
            board_delay_ms .FSK).1 =
          max 6 (2 * 6 - 8 +
            2 * (clock_accuracy * rx_delay_ms / 1000) * sf / 8 + 1) ∧
        (compute_rx_window_parameters sf bw clock_accuracy rx_delay_ms
            board_delay_ms .FSK).2.1 =
          Int.floor
            (((compute_rx_window_parameters sf bw clock_accuracy rx_delay_ms
                board_delay_ms .FSK).1 : ℚ) / 2 * ((8 : ℚ) / (sf : ℚ)) -
             4 * ((8 : ℚ) / (sf : ℚ)) + (board_delay_ms : ℚ))) := by
  constructor
  · intro sf bw clock_accuracy rx_delay_ms board_delay_ms hbound
    simp only [compute_rx_window_parameters, Nat.shiftRight_eq_div_pow]
    have hmod : (max (2 * 6 - 8 +
        2 * (clock_accuracy * rx_delay_ms / 1000) * bw_temp_of bw / 2 ^ sf + 1) 6)
          % 65536 =
        max 6 (2 * 6 - 8 +
          2 * (clock_accuracy * rx_delay_ms / 1000) * bw_temp_of bw / 2 ^ sf + 1) := by
      rw [Nat.mod_eq_of_lt (Nat.max_lt.mpr ⟨hbound, by norm_num⟩), Nat.max_comm]
    rw [hmod]
    refine ⟨rfl, ?_⟩
    rw [ceil_mul_neg_one_eq_floor_neg]
    congr 1
    push_cast
    ring
  · intro sf bw clock_accuracy rx_delay_ms board_delay_ms hbound
    simp only [compute_rx_window_parameters, Nat.shiftRight_eq_div_pow]
    have h8 : (2 : Nat) ^ 3 = 8 := by norm_num
    rw [h8]
    have hmod : (max (2 * 6 - 8 +
        2 * (clock_accuracy * rx_delay_ms / 1000) * sf / 8 + 1) 6) % 65536 =
        max 6 (2 * 6 - 8 +
          2 * (clock_accuracy * rx_delay_ms / 1000) * sf / 8 + 1) := by
      rw [Nat.mod_eq_of_lt (Nat.max_lt.mpr ⟨hbound, by norm_num⟩), Nat.max_comm]
    rw [hmod]
    refine ⟨rfl, ?_⟩
    rw [ceil_mul_neg_one_eq_floor_neg]
    congr 1
    push_cast
    ring

/-- Witness for `compute_rx_window_parameters_spec`: its LoRa part at
SF7/BW125, clock accuracy 30, RX delay 5000 ms, board delay 0. -/
theorem compute_rx_window_parameters_spec_witness :
    2 * 6 - 8 + 2 * (30 * 5000 / 1000) * bw_temp_of .BW125 / 2 ^ 7 + 1 < 65536 ∧
    ((compute_rx_window_parameters 7 .BW125 30 5000 0 .LORA).1 =
        max 6 (2 * 6 - 8 + 2 * (30 * 5000 / 1000) * bw_temp_of .BW125 / 2 ^ 7 + 1) ∧
      (compute_rx_window_parameters 7 .BW125 30 5000 0 .LORA).2.1 =
        Int.floor
          (((compute_rx_window_parameters 7 .BW125 30 5000 0 .LORA).1 : ℚ) / 2 *
            (((2 ^ 7 : Nat) : ℚ) / ((bw_temp_of .BW125 : Nat) : ℚ)) -
           4 * (((2 ^ 7 : Nat) : ℚ) / ((bw_temp_of .BW125 : Nat) : ℚ)) +
           ((0 : Nat) : ℚ))) :=
  ⟨by decide, compute_rx_window_parameters_spec.1 7 .BW125 30 5000 0 (by decide)⟩

/-! ## C6 — `lr1_stack_mac_rx_timer_configure` -/

/-- The per-window radio parameters of lines 569-590:
`(sf, bw, delay_ms, modulation)`, with `delay_ms = rx1_delay_s·1000` for
RX1 and `rx1_delay_s·1000 + 1000` for RX2. -/
def rx_window_config (type : rx_win_type_t) (st : lr1_stack_mac_t) :
    Nat × lr1mac_bandwidth_t × Nat × modulation_type_t :=
  match type with
  | .RX1 => (st.rx1_sf, st.rx1_bw, st.rx1_delay_s * 1000, st.rx1_modulation_type)
  | .RX2 => (st.rx2_sf, st.rx2_bw, st.rx1_delay_s * 1000 + 1000, st.rx2_modulation_type)

/-- Embedding of `lr1_stack_mac_rx_timer_configure` (lines 558-623).
`tcurrent_ms` is the `bsp_rtc_get_time_ms()` read at line 560 and `now2`
the one at line 619; `crystal_error` and `board_delay_ms` stand for
`BSP_CRYSTAL_ERROR` and `BSP_BOARD_DELAY_RX_SETTING_MS` (board constants
outside the slice); `smtc_real_rx_config_set` only configures the regional
layer.  The returned `Option Nat` is `some time_to_start` when
`lr1_stack_mac_rx_radio_start` is invoked — the planner task is armed with
that `start_time_ms` — and `none` when the window is already too late, in
which case only the radio state machine advances. -/
def lr1_stack_mac_rx_timer_configure (type : rx_win_type_t)
    (crystal_error board_delay_ms tcurrent_ms now2 : Nat)
    (st : lr1_stack_mac_t) : lr1_stack_mac_t × Option Nat :=
  let w := rx_window_config type st
  let c := compute_rx_window_parameters w.1 w.2.1 crystal_error w.2.2.1
      board_delay_ms w.2.2.2
  let st := { st with rx_window_symb := c.1, rx_offset_ms := c.2.1,
                      rx_timeout_ms := c.2.2 }
  let talarm_ms := u32sub (w.2.2.1 + st.isr_radio_timestamp) tcurrent_ms
  let off_u := (st.rx_offset_ms % 4294967296).toNat
  if toInt32 (u32sub talarm_ms off_u) < 0 then
    match type with
    | .RX1 => ({ st with radio_process_state := .RADIOSTATE_RX1FINISHED }, none)
    | .RX2 => ({ st with radio_process_state := .RADIOSTATE_IDLE }, none)
  else
    (st, some (u32sub (now2 + talarm_ms) off_u))

/-- A joined state with RX1 at SF7/BW125 LoRa, RxDelay 1 s, TxDone
timestamped at 0 (the structure defaults). -/
def c6_state : lr1_stack_mac_t := { rx1_delay_s := 1 }

theorem u32sub_add_sub_cancel (a b c : Nat) :
    u32sub (a + u32sub b a) c = u32sub b c := by
  unfold u32sub
  omega

/-- The signed margin the code tests before arming the RX timer
(lines 596-598): `(int32_t)(talarm − rx_offset_ms)` with
`talarm = delay_ms + timestamp − now`. -/
def rx_sched_diff (type : rx_win_type_t)
    (crystal_error board_delay_ms tcurrent_ms : Nat)
    (st : lr1_stack_mac_t) : Int :=
  let w := rx_window_config type st
  let c := compute_rx_window_parameters w.1 w.2.1 crystal_error w.2.2.1
      board_delay_ms w.2.2.2
  toInt32 (u32sub (u32sub (w.2.2.1 + st.isr_radio_timestamp) tcurrent_ms)
    ((c.2.1 % 4294967296).toNat))

/-- The start time the code arms when the window is not missed:
`t0 + delay_ms − offset_ms` modulo 2^32. -/
def rx_sched_start (type : rx_win_type_t)
    (crystal_error board_delay_ms : Nat) (st : lr1_stack_mac_t) : Nat :=
  let w := rx_window_config type st
  let c := compute_rx_window_parameters w.1 w.2.1 crystal_error w.2.2.1
      board_delay_ms w.2.2.2
  u32sub (st.isr_radio_timestamp + w.2.2.1) ((c.2.1 % 4294967296).toNat)

/-- Offset of the RX1 window for SF7/BW125 LoRa, crystal error 30, delay
1000 ms, board delay 0: 28 ms. -/
theorem c6_offset_28 :
    (compute_rx_window_parameters 7 .BW125 30 1000 0 .LORA).2.1 = 28 := by
  show Int.ceil ((4 : ℚ) * (((2 ^ 7 : Nat) : ℚ) / ((125 : Nat) : ℚ)) -
      ((63 : Nat) : ℚ) * (((2 ^ 7 : Nat) : ℚ) / ((125 : Nat) : ℚ)) / 2 -
      ((0 : Nat) : ℚ)) * (-1) = 28
  have h : Int.ceil ((4 : ℚ) * (((2 ^ 7 : Nat) : ℚ) / ((125 : Nat) : ℚ)) -
      ((63 : Nat) : ℚ) * (((2 ^ 7 : Nat) : ℚ) / ((125 : Nat) : ℚ)) / 2 -
      ((0 : Nat) : ℚ)) = -28 := by
    rw [Int.ceil_eq_iff]
    constructor <;> norm_num
  rw [h]
  decide

/-- C6 counterexample: RX1, crystal error 30, board delay 0,
`isr_radio_timestamp` = 0, both clock reads at 972.  The computed offset is
28 ms and `talarm = 1000 − 972 = 28`, so the difference between the
scheduled start time (`t0 + 1000 − 28 = 972`) and "now" (972) is exactly
zero — non-positive — yet the code arms the radio task (its test at line
598 is strictly `< 0`), scheduling it at 972. -/
theorem rx_timer_configure_counterexample :
    (compute_rx_window_parameters 7 .BW125 30 1000 0 .LORA).2.1 = 28 ∧
    (lr1_stack_mac_rx_timer_configure .RX1 30 0 972 972 c6_state).2 = some 972 := by
  refine ⟨c6_offset_28, ?_⟩
  simp only [lr1_stack_mac_rx_timer_configure, rx_window_config]
  rw [show c6_state.rx1_sf = 7 from rfl, show c6_state.rx1_bw = .BW125 from rfl,
    show c6_state.rx1_delay_s * 1000 = 1000 from rfl,
    show c6_state.rx1_modulation_type = .LORA from rfl, c6_offset_28]
  norm_num [c6_state, u32sub, toInt32]
  decide

/-- C6 (amended): after TxDone at `t0 = isr_radio_timestamp`,
`lr1_stack_mac_rx_timer_configure` (with both clock reads equal) arms the
RX radio task to start at `t0 + delay_ms − offset_ms` (modulo 2^32), where
`delay_ms = RxDelay·1000` for RX1 and `RxDelay·1000 + 1000` for RX2 and
`offset_ms` is the computed early-start offset; it declines to arm only
when the difference between that start time and the current time is
**strictly negative** (the `(int32_t)(talarm − offset) < 0` test) — at a
difference of exactly zero the task is still armed — and in the missed
case no task is armed and the state machine advances, RX1 to
`RX1FINISHED` and RX2 to `IDLE`. -/
theorem rx_timer_configure_spec (type : rx_win_type_t)
    (crystal_error board_delay_ms tcurrent_ms now2 : Nat)
    (st : lr1_stack_mac_t) (hnow : now2 = tcurrent_ms) :
    (rx_sched_diff type crystal_error board_delay_ms tcurrent_ms st < 0 →
        (lr1_stack_mac_rx_timer_configure type crystal_error board_delay_ms
            tcurrent_ms now2 st).2 = none ∧
        (lr1_stack_mac_rx_timer_configure type crystal_error board_delay_ms
            tcurrent_ms now2 st).1.radio_process_state =
          (match type with
           | .RX1 => radio_state_t.RADIOSTATE_RX1FINISHED
           | .RX2 => radio_state_t.RADIOSTATE_IDLE)) ∧
    (0 ≤ rx_sched_diff type crystal_error board_delay_ms tcurrent_ms st →
        (lr1_stack_mac_rx_timer_configure type crystal_error board_delay_ms
            tcurrent_ms now2 st).2 =
          some (rx_sched_start type crystal_error board_delay_ms st) ∧
        (lr1_stack_mac_rx_timer_configure type crystal_error board_delay_ms
            tcurrent_ms now2 st).1.radio_process_state =
          st.radio_process_state) := by
  subst hnow
  simp only [rx_sched_diff]
  constructor
  · intro hneg
    simp only [lr1_stack_mac_rx_timer_configure, if_pos hneg]
    cases type <;> simp
  · intro hpos
    simp only [lr1_stack_mac_rx_timer_configure, if_neg (not_lt.mpr hpos),
      rx_sched_start]
    refine ⟨?_, trivial⟩
    rw [u32sub_add_sub_cancel]
    rw [Nat.add_comm (rx_window_config type st).2.2.1 st.isr_radio_timestamp]

/-- The C6 scheduling difference at the witness input is zero, hence
non-negative. -/
theorem c6_diff_nonneg : 0 ≤ rx_sched_diff .RX1 30 0 972 c6_state := by
  simp only [rx_sched_diff]
  rw [show (rx_window_config .RX1 c6_state).1 = 7 from rfl,
    show (rx_window_config .RX1 c6_state).2.1 = .BW125 from rfl,
    show (rx_window_config .RX1 c6_state).2.2.1 = 1000 from rfl,
    show (rx_window_config .RX1 c6_state).2.2.2 = .LORA from rfl,
    c6_offset_28]
  norm_num [c6_state, u32sub, toInt32]
  decide

/-- Witness for `rx_timer_configure_spec`: RX1 at the counterexample's
timing (difference exactly zero), where the task is armed at
`t0 + delay − offset = 972`. -/
theorem rx_timer_configure_spec_witness :
    (972 : Nat) = 972 ∧
    0 ≤ rx_sched_diff .RX1 30 0 972 c6_state ∧
    ((lr1_stack_mac_rx_timer_configure .RX1 30 0 972 972 c6_state).2 =
        some (rx_sched_start .RX1 30 0 c6_state) ∧
      (lr1_stack_mac_rx_timer_configure .RX1 30 0 972 972
          c6_state).1.radio_process_state = c6_state.radio_process_state) :=
  ⟨rfl, c6_diff_nonneg,
   (rx_timer_configure_spec .RX1 30 0 972 972 c6_state rfl).2 c6_diff_nonneg⟩


/-! ## C8 — `lr1_stack_mac_join_request_build` -/

/-- Embedding of `lr1_stack_mac_join_request_build` (lines 988-1012).
`join_mic` stands for `join_compute_mic(&tx_payload[0], tx_payload_size,
app_key, &mic)` (crypto.c, outside the slice): it receives the first
`tx_payload_size` bytes and returns the 32-bit MIC, which the code then
appends in little-endian order; `smtc_real_memory_save` (the DevNonce
persistence) is recorded in `memory_saved`. -/
def lr1_stack_mac_join_request_build (join_mic : List Nat → Nat)
    (st : lr1_stack_mac_t) : lr1_stack_mac_t :=
  let st := { st with dev_nonce := (st.dev_nonce + 1) % 65536 }
  let st := { st with tx_mtype := JOIN_REQUEST, nb_trans_cpt := 1, nb_trans := 1 }
  let st := mac_header_set st
  let p := st.tx_payload
  let p := memcpyAt p 1 (fun i => rd st.app_eui (7 - i)) 8
  let p := memcpyAt p 9 (fun i => rd st.dev_eui (7 - i)) 8
  let p := bufSet p 17 (st.dev_nonce % 256)
  let p := bufSet p 18 (st.dev_nonce / 256 % 256)
  let mic := join_mic (frameBytes p 19)
  let p2 := memcpyAt p 19 (fun i => (u32le mic).getD i 0) 4
  { st with tx_payload := p2, tx_payload_size := 19 + 4,
            memory_saved := true }

/-- Device identity for the C8 scenarios: AppEUI 01..08, DevEUI 11..18
(byte arrays as stored in memory), DevNonce 5. -/
def c8_state : lr1_stack_mac_t :=
  { app_eui := fun i => [1, 2, 3, 4, 5, 6, 7, 8].getD i 0,
    dev_eui := fun i => [17, 18, 19, 20, 21, 22, 23, 24].getD i 0,
    dev_nonce := 5 }

/-- C8 counterexample: the MIC primitive receives the first **19** bytes
(MHDR 1 + AppEUI 8 + DevEUI 8 + DevNonce 2), not 18.  Instantiating the
MIC oracle with the length function, the built frame carries the
little-endian encoding of 19 in its MIC field, not the encoding of the
claimed 18-byte input. -/
theorem join_request_build_counterexample :
    (frameBytes (lr1_stack_mac_join_request_build (fun l => l.length)
        c8_state).tx_payload 23).drop 19 = u32le 19 ∧
    u32le ((fun (l : List Nat) => l.length)
        (frameBytes (lr1_stack_mac_join_request_build (fun l => l.length)
          c8_state).tx_payload 18)) = u32le 18 ∧
    u32le 19 ≠ u32le 18 := by
  refine ⟨by decide, by decide, by decide⟩

theorem frameBytes_memcpy_append (b src : Nat → Nat) (n k : Nat) :
    frameBytes (memcpyAt b n src k) (n + k) =
      frameBytes b n ++ (List.range k).map (fun i => rd src i) := by
  unfold frameBytes memcpyAt rd
  rw [List.range_add, List.map_append, List.map_map]
  congr 1
  · apply List.map_congr_left
    intro j hj
    simp only [List.mem_range] at hj
    have hc : ¬ (n ≤ j ∧ j < n + k) := by omega
    simp only [if_neg hc]
  · apply List.map_congr_left
    intro i hi
    simp only [List.mem_range, Function.comp] at hi ⊢
    have hc : n ≤ n + i ∧ n + i < n + k := ⟨by omega, by omega⟩
    simp only [if_pos hc]
    congr 2
    omega

theorem range4_u32le (m : Nat) :
    (List.range 4).map (fun i => rd (fun j => (u32le m).getD j 0) i) = u32le m := by
  simp [u32le, rd, List.range_succ, Nat.mod_mod_of_dvd]

theorem frameBytes_append_u32le (b : Nat → Nat) (m : Nat) :
    frameBytes (memcpyAt b 19 (fun i => (u32le m).getD i 0) 4) (19 + 4) =
      frameBytes b 19 ++ u32le m := by
  rw [frameBytes_memcpy_append, range4_u32le]

/-- C8 (amended): for every MIC function and every state with the R1 major
bits, `lr1_stack_mac_join_request_build` produces a 23-byte `tx_payload`
that is exactly `MHDR(0x00) || AppEUI[8, reversed = little-endian] ||
DevEUI[8, reversed] || DevNonce[2, little-endian] || MIC[4, little-endian]`
where the MIC is computed over the preceding **19** bytes, and DevNonce is
advanced (incremented mod 2^16) and persisted on every build. -/
theorem join_request_build_spec (f : List Nat → Nat) (st : lr1_stack_mac_t)
    (hmajor : st.tx_major_bits % 4 = 0) :
    frameBytes (lr1_stack_mac_join_request_build f st).tx_payload 23 =
      (0 :: ((List.range 8).map (fun i => rd st.app_eui (7 - i)) ++
        (List.range 8).map (fun i => rd st.dev_eui (7 - i)) ++
        [(st.dev_nonce + 1) % 65536 % 256, (st.dev_nonce + 1) % 65536 / 256 % 256])) ++
      u32le (f (0 :: ((List.range 8).map (fun i => rd st.app_eui (7 - i)) ++
        (List.range 8).map (fun i => rd st.dev_eui (7 - i)) ++
        [(st.dev_nonce + 1) % 65536 % 256,
         (st.dev_nonce + 1) % 65536 / 256 % 256]))) ∧
    (lr1_stack_mac_join_request_build f st).dev_nonce = (st.dev_nonce + 1) % 65536 ∧
    (lr1_stack_mac_join_request_build f st).tx_payload_size = 23 ∧
    (lr1_stack_mac_join_request_build f st).memory_saved = true := by
  have h19 : frameBytes
      (bufSet (bufSet (memcpyAt (memcpyAt
          (bufSet st.tx_payload 0 (JOIN_REQUEST % 8 * 32 + st.tx_major_bits % 4))
          1 (fun i => rd st.app_eui (7 - i)) 8)
          9 (fun i => rd st.dev_eui (7 - i)) 8)
        17 ((st.dev_nonce + 1) % 65536 % 256))
        18 ((st.dev_nonce + 1) % 65536 / 256 % 256)) 19 =
      0 :: ((List.range 8).map (fun i => rd st.app_eui (7 - i)) ++
        (List.range 8).map (fun i => rd st.dev_eui (7 - i)) ++
        [(st.dev_nonce + 1) % 65536 % 256,
         (st.dev_nonce + 1) % 65536 / 256 % 256]) := by
    simp only [frameBytes, List.range_succ, List.range_zero, List.map_append,
      List.map_cons, List.map_nil, List.nil_append, List.cons_append,
      List.append_assoc]
    norm_num [rd, bufSet, memcpyAt, JOIN_REQUEST, hmajor, Nat.mod_mod_of_dvd]
  simp only [lr1_stack_mac_join_request_build, mac_header_set]
  refine ⟨by rw [frameBytes_append_u32le, h19], ?_, ?_, ?_⟩ <;> trivial

/-- Witness for `join_request_build_spec` at the concrete identity
`c8_state` with the length function as MIC oracle. -/
theorem join_request_build_spec_witness :
    c8_state.tx_major_bits % 4 = 0 ∧
    (frameBytes (lr1_stack_mac_join_request_build (fun l => l.length)
        c8_state).tx_payload 23 =
      (0 :: ((List.range 8).map (fun i => rd c8_state.app_eui (7 - i)) ++
        (List.range 8).map (fun i => rd c8_state.dev_eui (7 - i)) ++
        [(c8_state.dev_nonce + 1) % 65536 % 256,
         (c8_state.dev_nonce + 1) % 65536 / 256 % 256])) ++
      u32le ((fun (l : List Nat) => l.length)
        (0 :: ((List.range 8).map (fun i => rd c8_state.app_eui (7 - i)) ++
          (List.range 8).map (fun i => rd c8_state.dev_eui (7 - i)) ++
          [(c8_state.dev_nonce + 1) % 65536 % 256,
           (c8_state.dev_nonce + 1) % 65536 / 256 % 256]))) ∧
    (lr1_stack_mac_join_request_build (fun l => l.length) c8_state).dev_nonce =
      (c8_state.dev_nonce + 1) % 65536 ∧
    (lr1_stack_mac_join_request_build (fun l => l.length) c8_state).tx_payload_size
      = 23 ∧
    (lr1_stack_mac_join_request_build (fun l => l.length) c8_state).memory_saved
      = true) :=
  ⟨by decide, join_request_build_spec (fun l => l.length) c8_state (by decide)⟩

end LR1Mac
